import Mathlib

/-!
Shallow embedding of the sawp-modbus parser (src/sawp-modbus/src/lib.rs):
a Modbus/TCP (MBAP) message dissector with soft validation flags, plus the
request/response matcher and the write-introspection helpers.

Modelling conventions:
* bytes are `Fin 256` (the Rust code parses `&[u8]`);
* u8/u16 values extracted from the input are `Nat`s (always below 2^8 / 2^16
  because they come from one or two input bytes);
* the one u16 subtraction in the source that can wrap (`self.length - offset`
  in `parse_write_request`) is modelled with an explicit `% 65536`
  (two's-complement wrap-around of release builds);
* bit-flag sets (`AccessType`, `CodeCategory`, `ErrorFlags`) are `Nat` bit
  sets with the same bit assignments as the `bitflags!` declarations;
* fallible parsing returns `Except ErrKind`, where `incomplete n` carries the
  missing-byte deficit exactly as nom streaming parsers report it.
-/

namespace SawpModbus

/-- A byte of parser input; the source functions operate on `&[u8]`. -/
abbrev Byte := Fin 256

/-- sawp::error::ErrorKind, restricted to the variants the modbus parser can
produce.  `expectedNonZero` models `ErrorKind::ExpectedNonZero` (only built
when a computed deficit is zero, which never happens on the guarded path). -/
inductive ErrKind where
  | invalidData
  | incomplete (needed : Nat)
  | expectedNonZero (n : Nat)
deriving DecidableEq, Repr

abbrev PResult (α : Type) := Except ErrKind α

instance {α : Type} [DecidableEq α] : DecidableEq (PResult α) := fun a b =>
  match a, b with
  | .error e1, .error e2 =>
    if h : e1 = e2 then .isTrue (by rw [h]) else .isFalse (by simp [h])
  | .ok v1, .ok v2 =>
    if h : v1 = v2 then .isTrue (by rw [h]) else .isFalse (by simp [h])
  | .error _, .ok _ => .isFalse (by simp)
  | .ok _, .error _ => .isFalse (by simp)

/-- nom::number::streaming::be_u8: one byte, or the missing deficit. -/
def be_u8 (input : List Byte) : PResult (List Byte × Nat) :=
  match input with
  | [] => .error (.incomplete 1)
  | b :: rest => .ok (rest, b.val)

/-- nom::number::streaming::be_u16: two bytes big-endian, or the deficit. -/
def be_u16 (input : List Byte) : PResult (List Byte × Nat) :=
  match input with
  | b1 :: b2 :: rest => .ok (rest, b1.val * 256 + b2.val)
  | _ => .error (.incomplete (2 - input.length))

/-- nom::bytes::streaming::take: `count` bytes, or the deficit. -/
def takeBytes (count : Nat) (input : List Byte) : PResult (List Byte × List Byte) :=
  if input.length < count then .error (.incomplete (count - input.length))
  else .ok (input.drop count, input.take count)

/-- const ERROR_MASK: any function byte at or above this is an exception. -/
def ERROR_MASK : Nat := 0x80

/-- const MAX_QUANTITY_BIT_ACCESS. -/
def MAX_QUANTITY_BIT_ACCESS : Nat := 2000

/-- const MAX_QUANTITY_WORD_ACCESS. -/
def MAX_QUANTITY_WORD_ACCESS : Nat := 125

/-- const MIN_RD_COUNT. -/
def MIN_RD_COUNT : Nat := 1

/-- const MAX_RD_COUNT. -/
def MAX_RD_COUNT : Nat := 250

/-- Function code names (enum FunctionCode, discriminants 0x01..0x18, 0x2b,
0x2c). -/
inductive FunctionCode where
  | RdCoils
  | RdDiscreteInputs
  | RdHoldRegs
  | RdInputRegs
  | WrSingleCoil
  | WrSingleReg
  | RdExcStatus
  | Diagnostic
  | Program484
  | Poll484
  | GetCommEventCtr
  | GetCommEventLog
  | ProgramController
  | PollController
  | WrMultCoils
  | WrMultRegs
  | ReportServerID
  | Program884
  | ResetCommLink
  | RdFileRec
  | WrFileRec
  | MaskWrReg
  | RdWrMultRegs
  | RdFIFOQueue
  | MEI
  | Unknown
deriving DecidableEq, Repr

/-- FunctionCode::from_raw: TryFromPrimitive lookup with Unknown fallback. -/
def FunctionCode.from_raw (val : Nat) : FunctionCode :=
  match val with
  | 0x01 => .RdCoils
  | 0x02 => .RdDiscreteInputs
  | 0x03 => .RdHoldRegs
  | 0x04 => .RdInputRegs
  | 0x05 => .WrSingleCoil
  | 0x06 => .WrSingleReg
  | 0x07 => .RdExcStatus
  | 0x08 => .Diagnostic
  | 0x09 => .Program484
  | 0x0a => .Poll484
  | 0x0b => .GetCommEventCtr
  | 0x0c => .GetCommEventLog
  | 0x0d => .ProgramController
  | 0x0e => .PollController
  | 0x0f => .WrMultCoils
  | 0x10 => .WrMultRegs
  | 0x11 => .ReportServerID
  | 0x12 => .Program884
  | 0x13 => .ResetCommLink
  | 0x14 => .RdFileRec
  | 0x15 => .WrFileRec
  | 0x16 => .MaskWrReg
  | 0x17 => .RdWrMultRegs
  | 0x18 => .RdFIFOQueue
  | 0x2b => .MEI
  | 0x2c => .Unknown
  | _ => .Unknown

/-- AccessType bit flags (bitflags! in the source), as a Nat bit set. -/
abbrev AccessType := Nat

namespace AccessType

def NONE : AccessType := 0b00000000
def READ : AccessType := 0b00000001
def WRITE : AccessType := 0b00000010
def DISCRETES : AccessType := 0b00000100
def COILS : AccessType := 0b00001000
def INPUT : AccessType := 0b00010000
def HOLDING : AccessType := 0b00100000
def SINGLE : AccessType := 0b01000000
def MULTIPLE : AccessType := 0b10000000
def BIT_ACCESS_MASK : AccessType := DISCRETES ||| COILS
def FUNC_MASK : AccessType := DISCRETES ||| COILS ||| INPUT ||| HOLDING
def WRITE_SINGLE : AccessType := WRITE ||| SINGLE
def WRITE_MULTIPLE : AccessType := WRITE ||| MULTIPLE

end AccessType

/-- bitflags `intersects`: some common bit is set. -/
def flagIntersects (a b : Nat) : Bool := a &&& b != 0

/-- bitflags `contains`: every bit of `b` is set in `a`. -/
def flagContains (a b : Nat) : Bool := a &&& b == b

/-- impl From<&FunctionCode> for AccessType. -/
def AccessType.fromFunctionCode (code : FunctionCode) : AccessType :=
  match code with
  | .RdCoils => AccessType.COILS ||| AccessType.READ
  | .RdDiscreteInputs => AccessType.DISCRETES ||| AccessType.READ
  | .RdHoldRegs => AccessType.HOLDING ||| AccessType.READ
  | .RdInputRegs => AccessType.INPUT ||| AccessType.READ
  | .WrSingleCoil => AccessType.COILS ||| AccessType.WRITE_SINGLE
  | .WrSingleReg => AccessType.HOLDING ||| AccessType.WRITE_SINGLE
  | .WrMultCoils => AccessType.COILS ||| AccessType.WRITE_MULTIPLE
  | .WrMultRegs => AccessType.HOLDING ||| AccessType.WRITE_MULTIPLE
  | .MaskWrReg => AccessType.HOLDING ||| AccessType.WRITE
  | .RdWrMultRegs => AccessType.HOLDING ||| AccessType.READ ||| AccessType.WRITE_MULTIPLE
  | _ => AccessType.NONE

/-- CodeCategory bit flags, as a Nat bit set. -/
abbrev CodeCategory := Nat

namespace CodeCategory

def NONE : CodeCategory := 0b00000000
def PUBLIC_ASSIGNED : CodeCategory := 0b00000001
def PUBLIC_UNASSIGNED : CodeCategory := 0b00000010
def USER_DEFINED : CodeCategory := 0b00000100
def RESERVED : CodeCategory := 0b00001000

end CodeCategory

/-- impl From<u8> for CodeCategory (the numeric band table). -/
def CodeCategory.fromRaw (id : Nat) : CodeCategory :=
  if id = 0 then CodeCategory.NONE
  else if id < 9 then CodeCategory.PUBLIC_UNASSIGNED
  else if id < 15 then CodeCategory.RESERVED
  else if id < 41 then CodeCategory.PUBLIC_UNASSIGNED
  else if id < 43 then CodeCategory.RESERVED
  else if id < 65 then CodeCategory.PUBLIC_UNASSIGNED
  else if id < 73 then CodeCategory.USER_DEFINED
  else if id < 90 then CodeCategory.PUBLIC_UNASSIGNED
  else if id < 92 then CodeCategory.RESERVED
  else if id < 100 then CodeCategory.PUBLIC_UNASSIGNED
  else if id < 111 then CodeCategory.USER_DEFINED
  else if id < 125 then CodeCategory.PUBLIC_UNASSIGNED
  else if id < 128 then CodeCategory.RESERVED
  else CodeCategory.NONE

/-- ErrorFlags bit flags, as a Nat bit set. -/
abbrev ErrorFlags := Nat

namespace ErrorFlags

def NONE : ErrorFlags := 0b00000000
def DATA_VALUE : ErrorFlags := 0b00000001
def DATA_LENGTH : ErrorFlags := 0b00000010
def EXC_CODE : ErrorFlags := 0b00000100

end ErrorFlags

/-- struct Function: raw function byte plus the decoded symbolic code. -/
structure Function where
  raw : Nat
  code : FunctionCode
deriving DecidableEq, Repr

/-- Function::new: decode through the 0x80 exception mask. -/
def Function.new (val : Nat) : Function :=
  { raw := val
    code :=
      if val ≥ ERROR_MASK then FunctionCode.from_raw (val ^^^ ERROR_MASK)
      else FunctionCode.from_raw val }

/-- enum DiagnosticSubfunction (discriminants 0x00..0x04, 0x0a..0x15, then
Reserved). -/
inductive DiagnosticSubfunction where
  | RetQueryData
  | RestartCommOpt
  | RetDiagReg
  | ChangeInputDelimiter
  | ForceListenOnlyMode
  | ClearCtrDiagReg
  | RetBusMsgCount
  | RetBusCommErrCount
  | RetBusExcErrCount
  | RetServerMsgCount
  | RetServerNoRespCount
  | RetServerNAKCount
  | RetServerBusyCount
  | RetBusCharOverrunCount
  | RetOverrunErrCount
  | ClearOverrunCounterFlag
  | GetClearPlusStats
  | Reserved
deriving DecidableEq, Repr

/-- struct Diagnostic: raw subfunction bytes plus the decoded symbol. -/
structure Diagnostic where
  raw : Nat
  code : DiagnosticSubfunction
deriving DecidableEq, Repr

/-- Diagnostic::new: TryFromPrimitive lookup with Reserved fallback. -/
def Diagnostic.new (val : Nat) : Diagnostic :=
  { raw := val
    code :=
      match val with
      | 0x00 => .RetQueryData
      | 0x01 => .RestartCommOpt
      | 0x02 => .RetDiagReg
      | 0x03 => .ChangeInputDelimiter
      | 0x04 => .ForceListenOnlyMode
      | 0x0a => .ClearCtrDiagReg
      | 0x0b => .RetBusMsgCount
      | 0x0c => .RetBusCommErrCount
      | 0x0d => .RetBusExcErrCount
      | 0x0e => .RetServerMsgCount
      | 0x0f => .RetServerNoRespCount
      | 0x10 => .RetServerNAKCount
      | 0x11 => .RetServerBusyCount
      | 0x12 => .RetBusCharOverrunCount
      | 0x13 => .RetOverrunErrCount
      | 0x14 => .ClearOverrunCounterFlag
      | 0x15 => .GetClearPlusStats
      | 0x16 => .Reserved
      | _ => .Reserved }

/-- enum MEIType (discriminants 0x00, 0x0d, 0x0e). -/
inductive MEIType where
  | Unknown
  | CANOpenGenRefReqResp
  | RdDevId
deriving DecidableEq, Repr

/-- struct MEI: raw mei byte plus the decoded symbol. -/
structure MEI where
  raw : Nat
  code : MEIType
deriving DecidableEq, Repr

/-- MEI::new: TryFromPrimitive lookup with Unknown fallback. -/
def MEI.new (val : Nat) : MEI :=
  { raw := val
    code :=
      match val with
      | 0x00 => .Unknown
      | 0x0d => .CANOpenGenRefReqResp
      | 0x0e => .RdDevId
      | _ => .Unknown }

/-- enum ExceptionCode (discriminants 0x01..0x08, 0x0a, 0x0b, 0x0c). -/
inductive ExceptionCode where
  | IllegalFunction
  | IllegalDataAddr
  | IllegalDataValue
  | ServerDeviceFail
  | Ack
  | ServerDeviceBusy
  | NegAck
  | MemParityErr
  | GatewayPathUnavailable
  | GatewayTargetFailToResp
  | Unknown
deriving DecidableEq, Repr

/-- struct Exception: raw exception byte plus the decoded symbol. -/
structure Exception where
  raw : Nat
  code : ExceptionCode
deriving DecidableEq, Repr

/-- Exception::new: TryFromPrimitive lookup with Unknown fallback. -/
def Exception.new (val : Nat) : Exception :=
  { raw := val
    code :=
      match val with
      | 0x01 => .IllegalFunction
      | 0x02 => .IllegalDataAddr
      | 0x03 => .IllegalDataValue
      | 0x04 => .ServerDeviceFail
      | 0x05 => .Ack
      | 0x06 => .ServerDeviceBusy
      | 0x07 => .NegAck
      | 0x08 => .MemParityErr
      | 0x0a => .GatewayPathUnavailable
      | 0x0b => .GatewayTargetFailToResp
      | 0x0c => .Unknown
      | _ => .Unknown }

/-- enum Read. -/
inductive Read where
  | request (address quantity : Nat)
  | response (data : List Byte)
deriving DecidableEq, Repr

/-- enum Write. -/
inductive Write where
  | multReq (address quantity : Nat) (data : List Byte)
  | mask (address and_mask or_mask : Nat)
  | other (address data : Nat)
deriving DecidableEq, Repr

/-- enum Data: the PDU payload variants. -/
inductive Data where
  | exception (e : Exception)
  | diagnostic (func : Diagnostic) (data : List Byte)
  | mei (mei_type : MEI) (data : List Byte)
  | read (r : Read)
  | write (w : Write)
  | readWrite (rd : Read) (wr : Write)
  | byteVec (data : List Byte)
  | empty
deriving DecidableEq, Repr

/-- struct Message: the parsed modbus frame. -/
structure Message where
  transaction_id : Nat
  protocol_id : Nat
  length : Nat
  unit_id : Nat
  function : Function
  access_type : AccessType
  category : CodeCategory
  data : Data
  flags : ErrorFlags
deriving DecidableEq, Repr

/-- Message::data_length: `self.length - 2`.  Every call site has
`length ≥ 2` (the framer rejects smaller lengths), so the u16 and the
truncated Nat subtraction agree on all reachable states. -/
def Message.data_length (m : Message) : Nat := m.length - 2

/-- impl From<&Message> for CodeCategory. -/
def CodeCategory.fromMessage (msg : Message) : CodeCategory :=
  match msg.function.code with
  | .Diagnostic =>
    match msg.data with
    | .diagnostic func _ =>
      if func.code = DiagnosticSubfunction.Reserved then CodeCategory.RESERVED
      else CodeCategory.PUBLIC_ASSIGNED
    | _ => CodeCategory.NONE
  | .MEI =>
    match msg.data with
    | .mei mei_type _ =>
      if mei_type.code = MEIType.Unknown then CodeCategory.RESERVED
      else CodeCategory.PUBLIC_ASSIGNED
    | _ => CodeCategory.NONE
  | .Unknown => CodeCategory.fromRaw msg.function.raw
  | _ => CodeCategory.PUBLIC_ASSIGNED

/-- Message::parse_exception: one exception-code byte. -/
def Message.parse_exception (m : Message) (input : List Byte) :
    PResult (List Byte × Message) :=
  match be_u8 input with
  | .error e => .error e
  | .ok (input, exc_code) =>
    let exc := Exception.new exc_code
    let flags :=
      if exc.code = ExceptionCode.IllegalDataValue ∧
          m.function.code = FunctionCode.Diagnostic then
        m.flags ||| ErrorFlags.EXC_CODE
      else if exc.code = ExceptionCode.IllegalDataAddr ∧
          ((6 < m.function.raw ∧ m.function.raw < 15) ∨
            (16 < m.function.raw ∧ m.function.raw < 22)) then
        m.flags ||| ErrorFlags.EXC_CODE
      else if exc.code = ExceptionCode.MemParityErr ∧
          m.function.code ≠ FunctionCode.RdFileRec ∧
          m.function.code ≠ FunctionCode.WrFileRec then
        m.flags ||| ErrorFlags.EXC_CODE
      else m.flags
    .ok (input, { m with flags := flags, data := Data.exception exc })

/-- Message::parse_diagnostic: u16 subfunction then the rest of the PDU. -/
def Message.parse_diagnostic (m : Message) (input : List Byte) :
    PResult (List Byte × Message) :=
  if m.data_length < 2 then .error .invalidData
  else match be_u16 input with
  | .error e => .error e
  | .ok (input, diag_func) =>
    match takeBytes (m.data_length - 2) input with
    | .error e => .error e
    | .ok (input, rest) =>
      .ok (input, { m with data := Data.diagnostic (Diagnostic.new diag_func) rest })

/-- Message::parse_mei: u8 mei type then the rest of the PDU. -/
def Message.parse_mei (m : Message) (input : List Byte) :
    PResult (List Byte × Message) :=
  if m.data_length < 1 then .error .invalidData
  else match be_u8 input with
  | .error e => .error e
  | .ok (input, raw_mei) =>
    let mei_type := MEI.new raw_mei
    match takeBytes (m.data_length - 1) input with
    | .error e => .error e
    | .ok (input, rest) =>
      .ok (input, { m with data := Data.mei mei_type rest })

/-- Message::parse_bytevec: the whole remaining PDU verbatim. -/
def Message.parse_bytevec (m : Message) (input : List Byte) :
    PResult (List Byte × Message) :=
  match takeBytes m.data_length input with
  | .error e => .error e
  | .ok (input, data) => .ok (input, { m with data := Data.byteVec data })

/-- Message::parse_read_request: u16 address, u16 quantity, range flags. -/
def Message.parse_read_request (m : Message) (input : List Byte) :
    PResult (List Byte × Message) :=
  match be_u16 input with
  | .error e => .error e
  | .ok (input, address) =>
    match be_u16 input with
    | .error e => .error e
    | .ok (input, quantity) =>
      let flags := if quantity = 0 then m.flags ||| ErrorFlags.DATA_VALUE else m.flags
      let flags :=
        if m.function.code ≠ FunctionCode.RdWrMultRegs ∧ m.data_length > 4 then
          flags ||| ErrorFlags.DATA_LENGTH
        else flags
      let flags :=
        if flagIntersects m.access_type AccessType.BIT_ACCESS_MASK then
          if quantity > MAX_QUANTITY_BIT_ACCESS then flags ||| ErrorFlags.DATA_VALUE
          else flags
        else if quantity > MAX_QUANTITY_WORD_ACCESS then flags ||| ErrorFlags.DATA_VALUE
        else flags
      .ok (input, { m with flags := flags, data := Data.read (Read.request address quantity) })

/-- Message::parse_read_response: u8 count then count-checked data bytes. -/
def Message.parse_read_response (m : Message) (input : List Byte) :
    PResult (List Byte × Message) :=
  if m.data_length < 1 then .error .invalidData
  else match be_u8 input with
  | .error e => .error e
  | .ok (input, count) =>
    let flags :=
      if count < MIN_RD_COUNT ∨ count > MAX_RD_COUNT then m.flags ||| ErrorFlags.DATA_VALUE
      else m.flags
    let flags :=
      if m.data_length - 1 ≠ count then flags ||| ErrorFlags.DATA_VALUE
      else flags
    match takeBytes (m.data_length - 1) input with
    | .error e => .error e
    | .ok (input, data) =>
      .ok (input, { m with flags := flags, data := Data.read (Read.response data) })

/-- Message::parse_write_request: address then the SINGLE / MULTIPLE / mask
branches.  `self.length - offset` is a u16 subtraction in the source; it is
modelled with wrap-around (`+ 65536 ... % 65536`), the release-build
semantics, because `length < offset` is reachable (see the C9 analysis). -/
def Message.parse_write_request (m : Message) (input : List Byte) :
    PResult (List Byte × Message) :=
  match be_u16 input with
  | .error e => .error e
  | .ok (input, address) =>
    if flagContains m.access_type AccessType.SINGLE then
      match be_u16 input with
      | .error e => .error e
      | .ok (input, data) =>
        let flags :=
          if m.data_length > 4 then m.flags ||| ErrorFlags.DATA_LENGTH else m.flags
        let flags :=
          if flagContains m.access_type AccessType.COILS ∧ data ≠ 0x0000 ∧ data ≠ 0xff00 then
            flags ||| ErrorFlags.DATA_VALUE
          else flags
        .ok (input, { m with flags := flags, data := Data.write (Write.other address data) })
    else if flagContains m.access_type AccessType.MULTIPLE then
      match be_u16 input with
      | .error e => .error e
      | .ok (input, quantity) =>
        match be_u8 input with
        | .error e => .error e
        | .ok (input, count) =>
          let offset : Nat :=
            if m.function.code = FunctionCode.RdWrMultRegs then 7 + 4 else 7
          let lengthMinusOffset := (m.length + 65536 - offset) % 65536
          let flags :=
            if quantity = 0 ∨ lengthMinusOffset ≠ count then
              m.flags ||| ErrorFlags.DATA_VALUE
            else m.flags
          let flags :=
            if flagContains m.access_type AccessType.BIT_ACCESS_MASK then
              if quantity > MAX_QUANTITY_BIT_ACCESS ∨
                  quantity ≠ count / 8 + (if count % 8 ≠ 0 then 1 else 0) then
                flags ||| ErrorFlags.DATA_VALUE
              else flags
            else if quantity > MAX_QUANTITY_WORD_ACCESS ∨ count ≠ 2 * quantity then
              flags ||| ErrorFlags.DATA_VALUE
            else flags
          match takeBytes lengthMinusOffset input with
          | .error e => .error e
          | .ok (input, data) =>
            let newData :=
              match m.data with
              | .read rd => Data.readWrite rd (Write.multReq address quantity data)
              | _ => Data.write (Write.multReq address quantity data)
            .ok (input, { m with flags := flags, data := newData })
    else
      match be_u16 input with
      | .error e => .error e
      | .ok (input, and_mask) =>
        match be_u16 input with
        | .error e => .error e
        | .ok (input, or_mask) =>
          let flags :=
            if m.data_length > 6 then m.flags ||| ErrorFlags.DATA_LENGTH else m.flags
          .ok (input, { m with flags := flags,
                               data := Data.write (Write.mask address and_mask or_mask) })

/-- Message::parse_write_response: address then the SINGLE / MULTIPLE / mask
branches. -/
def Message.parse_write_response (m : Message) (input : List Byte) :
    PResult (List Byte × Message) :=
  match be_u16 input with
  | .error e => .error e
  | .ok (input, address) =>
    if flagContains m.access_type AccessType.SINGLE then
      match be_u16 input with
      | .error e => .error e
      | .ok (input, data) =>
        let flags :=
          if m.data_length > 4 then m.flags ||| ErrorFlags.DATA_LENGTH else m.flags
        .ok (input, { m with flags := flags, data := Data.write (Write.other address data) })
    else if flagContains m.access_type AccessType.MULTIPLE then
      match be_u16 input with
      | .error e => .error e
      | .ok (input, quantity) =>
        let flags :=
          if m.data_length > 4 then m.flags ||| ErrorFlags.DATA_LENGTH else m.flags
        let flags :=
          if quantity = 0 then flags ||| ErrorFlags.DATA_VALUE else flags
        let flags :=
          if flagIntersects m.access_type AccessType.BIT_ACCESS_MASK then
            if quantity > MAX_QUANTITY_WORD_ACCESS then flags ||| ErrorFlags.DATA_VALUE
            else flags
          else if quantity > MAX_QUANTITY_BIT_ACCESS then flags ||| ErrorFlags.DATA_VALUE
          else flags
        .ok (input, { m with flags := flags,
                             data := Data.write (Write.other address quantity) })
    else
      match be_u16 input with
      | .error e => .error e
      | .ok (input, and_mask) =>
        match be_u16 input with
        | .error e => .error e
        | .ok (input, or_mask) =>
          let flags :=
            if m.data_length > 6 then m.flags ||| ErrorFlags.DATA_LENGTH else m.flags
          .ok (input, { m with flags := flags,
                               data := Data.write (Write.mask address and_mask or_mask) })

/-- Message::parse_request.  In the source, the guarded match arms for the
no-payload and file-record functions set a flag and then fall through to
`parse_bytevec` after the match; when a guard fails, control reaches the `_`
arm (the read/write dispatch).  That control flow is mirrored here with an
if-chain. -/
def Message.parse_request (m : Message) (input : List Byte) :
    PResult (List Byte × Message) :=
  match m.function.code with
  | .Diagnostic =>
    let m :=
      { m with flags :=
          if m.data_length ≠ 4 then m.flags ||| ErrorFlags.DATA_LENGTH else m.flags }
    match m.parse_diagnostic input with
    | .error e => .error e
    | .ok (input, m) =>
      let newFlags :=
        match m.data with
        | .diagnostic func data =>
          match data with
          | [d0, d1] =>
            match func.code with
            | .RetQueryData | .ForceListenOnlyMode | .Reserved => m.flags
            | .RestartCommOpt =>
              if d1.val ≠ 0x00 ∨ (d0.val ≠ 0x00 ∧ d0.val ≠ 0xff) then
                m.flags ||| ErrorFlags.DATA_VALUE
              else m.flags
            | .ChangeInputDelimiter =>
              if d1.val ≠ 0x00 then m.flags ||| ErrorFlags.DATA_VALUE else m.flags
            | _ =>
              if d0.val ≠ 0x00 ∨ d1.val ≠ 0x00 then m.flags ||| ErrorFlags.DATA_VALUE
              else m.flags
          | _ => m.flags
        | _ => m.flags
      .ok (input, { m with flags := newFlags })
  | .MEI => m.parse_mei input
  | c =>
    if (c = FunctionCode.RdFileRec ∨ c = FunctionCode.WrFileRec) ∧ m.data_length = 0 then
      ({ m with flags := m.flags ||| ErrorFlags.DATA_LENGTH }).parse_bytevec input
    else if (c = FunctionCode.RdExcStatus ∨ c = FunctionCode.GetCommEventCtr ∨
        c = FunctionCode.GetCommEventLog ∨ c = FunctionCode.ReportServerID) ∧
        m.data_length > 0 then
      ({ m with flags := m.flags ||| ErrorFlags.DATA_LENGTH }).parse_bytevec input
    else if c = FunctionCode.RdFIFOQueue ∧ m.data_length ≠ 2 then
      ({ m with flags := m.flags ||| ErrorFlags.DATA_LENGTH }).parse_bytevec input
    else if flagIntersects m.access_type AccessType.READ then
      match m.parse_read_request input with
      | .error e => .error e
      | .ok (input, m) =>
        if flagIntersects m.access_type AccessType.WRITE then m.parse_write_request input
        else .ok (input, m)
    else if flagIntersects m.access_type AccessType.WRITE then
      m.parse_write_request input
    else
      m.parse_bytevec input

/-- Message::parse_response.  The `_ if raw >= ERROR_MASK` arm comes first in
the source match, mirrored by the leading if.  The guarded RdExcStatus /
GetCommEventCtr arms set a flag and fall through to `parse_bytevec`. -/
def Message.parse_response (m : Message) (input : List Byte) :
    PResult (List Byte × Message) :=
  if m.function.raw ≥ ERROR_MASK then m.parse_exception input
  else match m.function.code with
  | .Diagnostic => m.parse_diagnostic input
  | .MEI => m.parse_mei input
  | c =>
    if c = FunctionCode.RdExcStatus ∧ m.data_length ≠ 1 then
      ({ m with flags := m.flags ||| ErrorFlags.DATA_LENGTH }).parse_bytevec input
    else if c = FunctionCode.GetCommEventCtr ∧ m.data_length ≠ 4 then
      ({ m with flags := m.flags ||| ErrorFlags.DATA_LENGTH }).parse_bytevec input
    else if flagIntersects m.access_type AccessType.READ then
      m.parse_read_response input
    else if flagIntersects m.access_type AccessType.WRITE then
      m.parse_write_response input
    else
      m.parse_bytevec input

/-- Message::parse_unknown. -/
def Message.parse_unknown (m : Message) (input : List Byte) :
    PResult (List Byte × Message) :=
  if m.function.raw ≥ ERROR_MASK then m.parse_exception input
  else match m.function.code with
  | .Diagnostic => m.parse_diagnostic input
  | .MEI => m.parse_mei input
  | _ => m.parse_bytevec input

/-- sawp::parser::Direction. -/
inductive Direction where
  | toServer
  | toClient
  | unknown
deriving DecidableEq, Repr

/-- impl Parse for Modbus: the MBAP framer plus direction dispatch.  The
returned message is always `some` for this protocol. -/
def Modbus.parse (input : List Byte) (direction : Direction) :
    PResult (List Byte × Option Message) :=
  match be_u16 input with
  | .error e => .error e
  | .ok (input1, transaction_id) =>
    match be_u16 input1 with
    | .error e => .error e
    | .ok (input2, protocol_id) =>
      if protocol_id ≠ 0 then .error .invalidData
      else match be_u16 input2 with
      | .error e => .error e
      | .ok (input3, length) =>
        if length < 2 then .error .invalidData
        else if input3.length < length then
          let needed := length - input3.length
          if needed = 0 then .error (.expectedNonZero needed)
          else .error (.incomplete needed)
        else match be_u8 input3 with
        | .error e => .error e
        | .ok (input4, unit_id) =>
          match be_u8 input4 with
          | .error e => .error e
          | .ok (input5, raw_func) =>
            let function := Function.new raw_func
            let message : Message :=
              { transaction_id, protocol_id, length, unit_id, function
                access_type := AccessType.fromFunctionCode function.code
                category := CodeCategory.NONE
                data := Data.empty
                flags := ErrorFlags.NONE }
            match (match direction with
                   | .toServer => message.parse_request input5
                   | .toClient => message.parse_response input5
                   | .unknown => message.parse_unknown input5) with
            | .error e => .error e
            | .ok (input6, message) =>
              .ok (input6, some { message with category := CodeCategory.fromMessage message })

/-- Message::matches.  The source mutates `self.flags` and returns a bool;
modelled as returning the (acceptance, updated receiver flags) pair. -/
def Message.matches (self other : Message) : Bool × ErrorFlags :=
  if self.transaction_id ≠ other.transaction_id ∨ self.unit_id ≠ other.unit_id ∨
      self.function.code ≠ other.function.code ∨ self.access_type ≠ other.access_type then
    (false, self.flags)
  else if self.category ≠ CodeCategory.PUBLIC_ASSIGNED then (true, self.flags)
  else if (match other.data with | .exception _ => true | _ => false) then (true, self.flags)
  else
    match self.data with
    | .exception _ => (true, self.flags)
    | .byteVec _ => (true, self.flags)
    | .read (.response data) =>
      let count := data.length
      match (match other.data with
             | .read (.request _ quantity) => some quantity
             | .readWrite (.request _ quantity) _ => some quantity
             | _ => none) with
      | none => (false, self.flags)
      | some other_count =>
        if self.function.code ≠ FunctionCode.RdWrMultRegs then
          if count ≠ other_count / 8 + (if other_count % 8 ≠ 0 then 1 else 0) then
            (true, self.flags ||| ErrorFlags.DATA_VALUE)
          else (true, self.flags)
        else if count ≠ 2 * other_count then (true, self.flags ||| ErrorFlags.DATA_VALUE)
        else (true, self.flags)
    | .read (.request _ quantity) | .readWrite (.request _ quantity) _ =>
      let count := quantity
      match (match other.data with
             | .read (.response data) => some data.length
             | _ => none) with
      | none => (false, self.flags)
      | some other_count =>
        if self.function.code ≠ FunctionCode.RdWrMultRegs then
          if other_count ≠ count / 8 + (if count % 8 ≠ 0 then 1 else 0) then
            (true, self.flags ||| ErrorFlags.DATA_VALUE)
          else (true, self.flags)
        else if other_count ≠ 2 * count then (true, self.flags ||| ErrorFlags.DATA_VALUE)
        else (true, self.flags)
    | .write (.other addr data) =>
      (match other.data with
       | .write (.other other_addr other_data) =>
         if addr ≠ other_addr ∨ data ≠ other_data then
           (true, self.flags ||| ErrorFlags.DATA_VALUE)
         else (true, self.flags)
       | .write (.multReq other_addr other_quantity _) =>
         if addr ≠ other_addr ∨ data ≠ other_quantity then
           (true, self.flags ||| ErrorFlags.DATA_VALUE)
         else (true, self.flags)
       | _ => (false, self.flags))
    | .write (.multReq addr quantity _) =>
      (match other.data with
       | .write (.other other_addr other_data) =>
         if addr ≠ other_addr ∨ quantity ≠ other_data then
           (true, self.flags ||| ErrorFlags.DATA_VALUE)
         else (true, self.flags)
       | _ => (false, self.flags))
    | .write (.mask addr and_mask or_mask) =>
      (match other.data with
       | .write (.mask other_addr other_and other_or) =>
         if addr ≠ other_addr ∨ and_mask ≠ other_and ∨ or_mask ≠ other_or then
           (true, self.flags ||| ErrorFlags.DATA_VALUE)
         else (true, self.flags)
       | _ => (false, self.flags))
    | .diagnostic func _ =>
      (match other.data with
       | .diagnostic other_func _ => (func = other_func, self.flags)
       | _ => (false, self.flags))
    | .mei mei_type _ =>
      (match other.data with
       | .mei other_mei _ => (mei_type = other_mei, self.flags)
       | _ => (false, self.flags))
    | _ => (true, self.flags)

/-- Message::get_address_range: the 1-based inclusive range, as a pair.
`address + 1` and `address + quantity` are u16 additions in the source,
hence the explicit `% 65536`. -/
def Message.get_address_range (m : Message) : Option (Nat × Nat) :=
  match m.data with
  | .write (.other address _) | .write (.mask address _ _) =>
    some ((address + 1) % 65536, (address + 1) % 65536)
  | .read (.request address quantity) | .write (.multReq address quantity _)
  | .readWrite _ (.multReq address quantity _) =>
    if quantity > 0 then some ((address + 1) % 65536, (address + quantity) % 65536)
    else none
  | _ => none

/-- RangeInclusive::contains for the pair representation. -/
def rangeContains (r : Nat × Nat) (x : Nat) : Bool := r.1 ≤ x ∧ x ≤ r.2

/-- Message::get_write_value_at_address. -/
def Message.get_write_value_at_address (m : Message) (address : Nat) : Option Nat :=
  let body : Option Nat :=
    if flagContains m.access_type AccessType.SINGLE then
      match m.data with
      | .write (.other _ data) =>
        if flagContains m.access_type AccessType.COILS then
          some (if data ≠ 0 then 1 else 0)
        else some data
      | _ => none
    else if flagContains m.access_type AccessType.MULTIPLE then
      match (match m.data with
             | .write (.multReq start _ data) => some (start, data)
             | .readWrite _ (.multReq start _ data) => some (start, data)
             | _ => none) with
      | none => none
      | some (start, data) =>
        if start = 65535 ∨ start ≥ address then none
        else
          let offset0 := (address - (start + 1)) * 2
          let offset :=
            if flagContains m.access_type AccessType.COILS then offset0 >>> 3 else offset0
          match data[offset]?, data[offset + 1]? with
          | some val1, some val2 =>
            let value := val1.val <<< 8 ||| val2.val
            if flagContains m.access_type AccessType.COILS then
              some ((value >>> ((address - (start + 1)) &&& 0x7)) &&& 0x1)
            else some value
          | _, _ => none
    else none
  match m.get_address_range with
  | some range => if ¬ rangeContains range address then none else body
  | none => body

/-! ### Auxiliary predicates used by the verification statements -/

/-- Every dissector only writes `flags` and `data`; the other message fields
are preserved.  `sameHeader m m'` collects the preserved fields. -/
def sameHeader (m m' : Message) : Prop :=
  m'.transaction_id = m.transaction_id ∧ m'.protocol_id = m.protocol_id ∧
  m'.length = m.length ∧ m'.unit_id = m.unit_id ∧ m'.function = m.function ∧
  m'.access_type = m.access_type ∧ m'.category = m.category

/-- The payload shapes whose dissector consumes exactly the declared PDU
(`data_length = length - 2` bytes): the raw bytevec, diagnostic, MEI and
read-response dissectors always do; the write-multiple request dissector
consumes `length - offset` bytes after its 5 fixed bytes, which matches the
declared PDU only when `length ≥ offset` (offset is 7, or 11 for the
read-write function).  The fixed-size shapes (exception, read request,
single/mask writes, write-multiple responses) are excluded. -/
def consumesFullPdu (m : Message) : Bool :=
  match m.data with
  | .byteVec _ => true
  | .diagnostic _ _ => true
  | .mei _ _ => true
  | .read (.response _) => true
  | .write (.multReq _ _ _) => decide (7 ≤ m.length)
  | .readWrite _ _ => decide (11 ≤ m.length)
  | _ => false

/-- Payload shapes for which `matches` cross-validates structurally; the raw
`ByteVec` fallback and the shapes the parser never produces (`Empty`, and
`ReadWrite` whose read part is a response) land in `matches`' one-sided
catch-all accept and are excluded here. -/
def matchableShape (d : Data) : Bool :=
  match d with
  | .byteVec _ => false
  | .empty => false
  | .readWrite (.response _) _ => false
  | _ => true

end SawpModbus

namespace SawpModbus

/-! ### Basic facts about the parsing primitives -/

theorem be_u8_ok {inp r : List Byte} {v : Nat} (h : be_u8 inp = .ok (r, v)) :
    ∃ b : Byte, inp = b :: r ∧ v = b.val := by
  cases inp with
  | nil => simp [be_u8] at h
  | cons b rest =>
    simp only [be_u8, Except.ok.injEq, Prod.mk.injEq] at h
    exact ⟨b, by simp [h.1, h.2]⟩

theorem be_u16_ok {inp r : List Byte} {v : Nat} (h : be_u16 inp = .ok (r, v)) :
    ∃ b1 b2 : Byte, inp = b1 :: b2 :: r ∧ v = b1.val * 256 + b2.val := by
  cases inp with
  | nil => simp [be_u16] at h
  | cons b1 rest =>
    cases rest with
    | nil => simp [be_u16] at h
    | cons b2 rest2 =>
      simp only [be_u16, Except.ok.injEq, Prod.mk.injEq] at h
      exact ⟨b1, b2, by simp [h.1, h.2]⟩

theorem be_u8_len {inp r : List Byte} {v : Nat} (h : be_u8 inp = .ok (r, v)) :
    inp.length = 1 + r.length := by
  obtain ⟨b, rfl, -⟩ := be_u8_ok h
  simp [Nat.add_comm]

theorem be_u16_len {inp r : List Byte} {v : Nat} (h : be_u16 inp = .ok (r, v)) :
    inp.length = 2 + r.length := by
  obtain ⟨b1, b2, rfl, -⟩ := be_u16_ok h
  simp only [List.length_cons]
  omega

theorem be_u16_lt {inp r : List Byte} {v : Nat} (h : be_u16 inp = .ok (r, v)) :
    v < 65536 := by
  obtain ⟨b1, b2, -, rfl⟩ := be_u16_ok h
  have h1 := b1.isLt
  have h2 := b2.isLt
  omega

theorem takeBytes_ok {n : Nat} {inp r d : List Byte}
    (h : takeBytes n inp = .ok (r, d)) : inp.length = n + r.length := by
  unfold takeBytes at h
  split at h
  · cases h
  · simp only [Except.ok.injEq, Prod.mk.injEq] at h
    obtain ⟨h1, -⟩ := h
    subst h1
    simp only [List.length_drop]
    omega

/-! ### Header preservation through the dissectors -/

theorem sameHeader_refl (m : Message) : sameHeader m m := by
  simp [sameHeader]

theorem sameHeader_trans {a b c : Message} (h1 : sameHeader a b) (h2 : sameHeader b c) :
    sameHeader a c := by
  obtain ⟨e1, e2, e3, e4, e5, e6, e7⟩ := h1
  obtain ⟨f1, f2, f3, f4, f5, f6, f7⟩ := h2
  exact ⟨f1.trans e1, f2.trans e2, f3.trans e3, f4.trans e4, f5.trans e5,
    f6.trans e6, f7.trans e7⟩

theorem sameHeader_update (m : Message) (f : ErrorFlags) (d : Data) :
    sameHeader m { m with flags := f, data := d } := by
  simp [sameHeader]

/-! ### Per-dissector specification lemmas -/

theorem parse_bytevec_spec {m : Message} {inp r : List Byte} {m' : Message}
    (h : m.parse_bytevec inp = .ok (r, m')) :
    sameHeader m m' ∧ m'.flags = m.flags ∧ inp.length = m.data_length + r.length ∧
      ∃ d, m'.data = Data.byteVec d := by
  unfold Message.parse_bytevec at h
  cases ht : takeBytes m.data_length inp with
  | error e => rw [ht] at h; cases h
  | ok p =>
    obtain ⟨r1, d⟩ := p
    rw [ht] at h
    simp only [Except.ok.injEq, Prod.mk.injEq] at h
    obtain ⟨rfl, rfl⟩ := h
    exact ⟨sameHeader_update .., rfl, takeBytes_ok ht, d, rfl⟩

theorem parse_exception_spec {m : Message} {inp r : List Byte} {m' : Message}
    (h : m.parse_exception inp = .ok (r, m')) :
    sameHeader m m' ∧ inp.length = 1 + r.length ∧
      ∃ e, m'.data = Data.exception e ∧
        (e.code = ExceptionCode.IllegalDataAddr → 128 ≤ m.function.raw →
          m'.flags = m.flags) := by
  unfold Message.parse_exception at h
  cases hb : be_u8 inp with
  | error e => rw [hb] at h; cases h
  | ok p =>
    obtain ⟨inp1, v⟩ := p
    rw [hb] at h
    simp only [Except.ok.injEq, Prod.mk.injEq] at h
    obtain ⟨rfl, rfl⟩ := h
    refine ⟨sameHeader_update .., be_u8_len hb, Exception.new v, rfl, ?_⟩
    intro hcode hraw
    simp only
    rw [if_neg, if_neg, if_neg]
    · simp [hcode]
    · simp only [not_and]
      intro h1
      omega
    · simp [hcode]

theorem parse_diagnostic_spec {m : Message} {inp r : List Byte} {m' : Message}
    (h : m.parse_diagnostic inp = .ok (r, m')) :
    sameHeader m m' ∧ m'.flags = m.flags ∧ 2 ≤ m.data_length ∧
      inp.length = m.data_length + r.length ∧
      ∃ f d, m'.data = Data.diagnostic f d := by
  unfold Message.parse_diagnostic at h
  split at h
  · cases h
  · rename_i hdl
    split at h
    · cases h
    · rename_i inp1 v hb
      split at h
      · cases h
      · rename_i inp2 d ht
        simp only [Except.ok.injEq, Prod.mk.injEq] at h
        obtain ⟨rfl, rfl⟩ := h
        have hlen1 := be_u16_len hb
        have hlen2 := takeBytes_ok ht
        refine ⟨sameHeader_update .., rfl, by omega, by omega, _, _, rfl⟩

theorem parse_mei_spec {m : Message} {inp r : List Byte} {m' : Message}
    (h : m.parse_mei inp = .ok (r, m')) :
    sameHeader m m' ∧ m'.flags = m.flags ∧ 1 ≤ m.data_length ∧
      inp.length = m.data_length + r.length ∧
      ∃ t d, m'.data = Data.mei t d := by
  unfold Message.parse_mei at h
  split at h
  · cases h
  · rename_i hdl
    split at h
    · cases h
    · rename_i inp1 v hb
      split at h
      · cases h
      · rename_i inp2 d ht
        simp only [Except.ok.injEq, Prod.mk.injEq] at h
        obtain ⟨rfl, rfl⟩ := h
        have hlen1 := be_u8_len hb
        have hlen2 := takeBytes_ok ht
        refine ⟨sameHeader_update .., rfl, by omega, by omega, _, _, rfl⟩

theorem parse_read_request_spec {m : Message} {inp r : List Byte} {m' : Message}
    (h : m.parse_read_request inp = .ok (r, m')) :
    sameHeader m m' ∧ inp.length = 4 + r.length ∧
      ∃ a q, m'.data = Data.read (Read.request a q) := by
  unfold Message.parse_read_request at h
  split at h
  · cases h
  · rename_i inp1 a hb
    split at h
    · cases h
    · rename_i inp2 q hb2
      simp only [Except.ok.injEq, Prod.mk.injEq] at h
      obtain ⟨rfl, rfl⟩ := h
      have hlen1 := be_u16_len hb
      have hlen2 := be_u16_len hb2
      exact ⟨sameHeader_update .., by omega, a, q, rfl⟩

theorem parse_read_response_spec {m : Message} {inp r : List Byte} {m' : Message}
    (h : m.parse_read_response inp = .ok (r, m')) :
    sameHeader m m' ∧ 1 ≤ m.data_length ∧ inp.length = m.data_length + r.length ∧
      ∃ d, m'.data = Data.read (Read.response d) := by
  unfold Message.parse_read_response at h
  split at h
  · cases h
  · rename_i hdl
    split at h
    · cases h
    · rename_i inp1 v hb
      cases ht : takeBytes (m.data_length - 1) inp1 with
      | error e => simp [ht] at h
      | ok q =>
        obtain ⟨inp2, d⟩ := q
        simp only [ht] at h
        simp only [Except.ok.injEq, Prod.mk.injEq] at h
        obtain ⟨rfl, rfl⟩ := h
        have hlen1 := be_u8_len hb
        have hlen2 := takeBytes_ok ht
        refine ⟨sameHeader_update .., by omega, by omega, _, rfl⟩

theorem parse_write_request_spec {m : Message} {inp r : List Byte} {m' : Message}
    (h : m.parse_write_request inp = .ok (r, m')) :
    sameHeader m m' ∧
      ((flagContains m.access_type AccessType.SINGLE = true ∧
          inp.length = 4 + r.length ∧ ∃ a d, m'.data = Data.write (Write.other a d)) ∨
       (flagContains m.access_type AccessType.SINGLE = false ∧
          flagContains m.access_type AccessType.MULTIPLE = true ∧
          inp.length = 5 + (m.length + 65536 -
            (if m.function.code = FunctionCode.RdWrMultRegs then 7 + 4 else 7)) % 65536 +
            r.length ∧
          ((∃ rd w, m.data = Data.read rd ∧ m'.data = Data.readWrite rd w) ∨
           ((∀ rd, m.data ≠ Data.read rd) ∧
             ∃ a q dat, m'.data = Data.write (Write.multReq a q dat)))) ∨
       (flagContains m.access_type AccessType.SINGLE = false ∧
          flagContains m.access_type AccessType.MULTIPLE = false ∧
          inp.length = 6 + r.length ∧ ∃ a b c, m'.data = Data.write (Write.mask a b c))) := by
  unfold Message.parse_write_request at h
  split at h
  · cases h
  · rename_i inp1 address hb
    have hlen1 := be_u16_len hb
    split at h
    · -- SINGLE branch
      rename_i hsingle
      split at h
      · cases h
      · rename_i inp2 d hb2
        have hlen2 := be_u16_len hb2
        simp only [Except.ok.injEq, Prod.mk.injEq] at h
        obtain ⟨rfl, rfl⟩ := h
        exact ⟨sameHeader_update .., Or.inl ⟨hsingle, by omega, address, d, rfl⟩⟩
    · rename_i hnsingle
      split at h
      · -- MULTIPLE branch
        rename_i hmult
        split at h
        · cases h
        · rename_i inp2 quantity hb2
          have hlen2 := be_u16_len hb2
          split at h
          · cases h
          · rename_i inp3 count hb3
            have hlen3 := be_u8_len hb3
            cases ht : takeBytes
                ((m.length + 65536 -
                  (if m.function.code = FunctionCode.RdWrMultRegs then 7 + 4 else 7)) % 65536)
                inp3 with
            | error e => simp [ht] at h
            | ok p =>
              obtain ⟨inp4, dat⟩ := p
              simp only [ht] at h
              have hlen4 := takeBytes_ok ht
              split at h
              · -- m.data = Data.read rd
                rename_i rd hread
                simp only [Except.ok.injEq, Prod.mk.injEq] at h
                obtain ⟨rfl, rfl⟩ := h
                refine ⟨sameHeader_update .., Or.inr (Or.inl ⟨by simpa using hnsingle, hmult,
                  by omega, Or.inl ⟨rd, _, hread, rfl⟩⟩)⟩
              · rename_i hnread
                simp only [Except.ok.injEq, Prod.mk.injEq] at h
                obtain ⟨rfl, rfl⟩ := h
                refine ⟨sameHeader_update .., Or.inr (Or.inl ⟨by simpa using hnsingle, hmult,
                  by omega, Or.inr ⟨fun rd hrd => hnread rd hrd, address, quantity, dat, rfl⟩⟩)⟩
      · -- mask branch
        rename_i hnmult
        split at h
        · cases h
        · rename_i inp2 and_mask hb2
          have hlen2 := be_u16_len hb2
          split at h
          · cases h
          · rename_i inp3 or_mask hb3
            have hlen3 := be_u16_len hb3
            simp only [Except.ok.injEq, Prod.mk.injEq] at h
            obtain ⟨rfl, rfl⟩ := h
            exact ⟨sameHeader_update .., Or.inr (Or.inr ⟨by simpa using hnsingle,
              by simpa using hnmult, by omega, address, and_mask, or_mask, rfl⟩)⟩

theorem parse_write_response_spec {m : Message} {inp r : List Byte} {m' : Message}
    (h : m.parse_write_response inp = .ok (r, m')) :
    sameHeader m m' ∧
      ((flagContains m.access_type AccessType.SINGLE = true ∧
          inp.length = 4 + r.length ∧ ∃ a d, m'.data = Data.write (Write.other a d)) ∨
       (flagContains m.access_type AccessType.SINGLE = false ∧
          flagContains m.access_type AccessType.MULTIPLE = true ∧
          inp.length = 4 + r.length ∧
          ∃ a q, m'.data = Data.write (Write.other a q) ∧
            m'.flags =
              (let f1 := if m.data_length > 4 then m.flags ||| ErrorFlags.DATA_LENGTH
                         else m.flags
               let f2 := if q = 0 then f1 ||| ErrorFlags.DATA_VALUE else f1
               if flagIntersects m.access_type AccessType.BIT_ACCESS_MASK then
                 if q > MAX_QUANTITY_WORD_ACCESS then f2 ||| ErrorFlags.DATA_VALUE else f2
               else if q > MAX_QUANTITY_BIT_ACCESS then f2 ||| ErrorFlags.DATA_VALUE
               else f2)) ∨
       (flagContains m.access_type AccessType.SINGLE = false ∧
          flagContains m.access_type AccessType.MULTIPLE = false ∧
          inp.length = 6 + r.length ∧ ∃ a b c, m'.data = Data.write (Write.mask a b c))) := by
  unfold Message.parse_write_response at h
  split at h
  · cases h
  · rename_i inp1 address hb
    have hlen1 := be_u16_len hb
    split at h
    · rename_i hsingle
      split at h
      · cases h
      · rename_i inp2 d hb2
        have hlen2 := be_u16_len hb2
        simp only [Except.ok.injEq, Prod.mk.injEq] at h
        obtain ⟨rfl, rfl⟩ := h
        exact ⟨sameHeader_update .., Or.inl ⟨hsingle, by omega, address, d, rfl⟩⟩
    · rename_i hnsingle
      split at h
      · rename_i hmult
        split at h
        · cases h
        · rename_i inp2 quantity hb2
          have hlen2 := be_u16_len hb2
          simp only [Except.ok.injEq, Prod.mk.injEq] at h
          obtain ⟨rfl, rfl⟩ := h
          exact ⟨sameHeader_update .., Or.inr (Or.inl ⟨by simpa using hnsingle, hmult,
            by omega, address, quantity, rfl, rfl⟩)⟩
      · rename_i hnmult
        split at h
        · cases h
        · rename_i inp2 and_mask hb2
          have hlen2 := be_u16_len hb2
          split at h
          · cases h
          · rename_i inp3 or_mask hb3
            have hlen3 := be_u16_len hb3
            simp only [Except.ok.injEq, Prod.mk.injEq] at h
            obtain ⟨rfl, rfl⟩ := h
            exact ⟨sameHeader_update .., Or.inr (Or.inr ⟨by simpa using hnsingle,
              by simpa using hnmult, by omega, address, and_mask, or_mask, rfl⟩)⟩

theorem sameHeader_flags (m : Message) (f : ErrorFlags) :
    sameHeader m { m with flags := f } := by
  simp [sameHeader]

theorem classifier_read_write {c : FunctionCode}
    (h1 : flagIntersects (AccessType.fromFunctionCode c) AccessType.READ = true)
    (h2 : flagIntersects (AccessType.fromFunctionCode c) AccessType.WRITE = true) :
    c = FunctionCode.RdWrMultRegs := by
  cases c <;> first
    | rfl
    | exact absurd h1 (by decide)
    | exact absurd h2 (by decide)

theorem classifier_no_read {c : FunctionCode}
    (h1 : flagIntersects (AccessType.fromFunctionCode c) AccessType.READ = false) :
    c ≠ FunctionCode.RdWrMultRegs := by
  intro hc
  subst hc
  exact absurd h1 (by decide)

theorem consumesFullPdu_category (m : Message) (cat : CodeCategory) :
    consumesFullPdu { m with category := cat } = consumesFullPdu m := rfl

theorem fromMessage_category (m : Message) (cat : CodeCategory) :
    CodeCategory.fromMessage { m with category := cat } = CodeCategory.fromMessage m := rfl

theorem parse_request_spec {m : Message} {inp r : List Byte} {m' : Message}
    (hacc : m.access_type = AccessType.fromFunctionCode m.function.code)
    (hlen : m.length < 65536)
    (hempty : m.data = Data.empty)
    (h : m.parse_request inp = .ok (r, m')) :
    sameHeader m m' ∧ (∀ e, m'.data ≠ Data.exception e) ∧
      (consumesFullPdu m' = true → inp.length = m.data_length + r.length) := by
  unfold Message.parse_request at h
  split at h
  · -- Diagnostic request
    split at h
    · simp only [] at h
      split at h
      · cases h
      · rename_i inp1 m2 hd
        simp only [Except.ok.injEq, Prod.mk.injEq] at h
        obtain ⟨rfl, rfl⟩ := h
        obtain ⟨hH, hF, hdl2, hcons, f, d, hdata⟩ := parse_diagnostic_spec hd
        refine ⟨sameHeader_trans (sameHeader_flags ..)
          (sameHeader_trans hH (sameHeader_flags ..)), by simp [hdata], fun _ => ?_⟩
        simpa [Message.data_length] using hcons
    · simp only [] at h
      split at h
      · cases h
      · rename_i inp1 m2 hd
        simp only [Except.ok.injEq, Prod.mk.injEq] at h
        obtain ⟨rfl, rfl⟩ := h
        obtain ⟨hH, hF, hdl2, hcons, f, d, hdata⟩ := parse_diagnostic_spec hd
        refine ⟨sameHeader_trans (sameHeader_flags ..)
          (sameHeader_trans hH (sameHeader_flags ..)), by simp [hdata], fun _ => ?_⟩
        simpa [Message.data_length] using hcons
  · -- MEI request
    obtain ⟨hH, hF, hdl1, hcons, t, d, hdata⟩ := parse_mei_spec h
    exact ⟨hH, by simp [hdata], fun _ => hcons⟩
  · -- default arm
    rename_i hc1 hc2
    split at h
    · -- RdFileRec/WrFileRec with empty payload: flag + bytevec
      obtain ⟨hH, hF, hcons, d, hdata⟩ := parse_bytevec_spec h
      exact ⟨sameHeader_trans (sameHeader_flags ..) hH, by simp [hdata], fun _ => hcons⟩
    · split at h
      · -- no-payload functions with payload: flag + bytevec
        obtain ⟨hH, hF, hcons, d, hdata⟩ := parse_bytevec_spec h
        exact ⟨sameHeader_trans (sameHeader_flags ..) hH, by simp [hdata], fun _ => hcons⟩
      · split at h
        · -- RdFIFOQueue with wrong payload: flag + bytevec
          obtain ⟨hH, hF, hcons, d, hdata⟩ := parse_bytevec_spec h
          exact ⟨sameHeader_trans (sameHeader_flags ..) hH, by simp [hdata], fun _ => hcons⟩
        · split at h
          · -- READ dispatch
            rename_i hread
            cases hr : m.parse_read_request inp with
            | error e => simp [hr] at h
            | ok p =>
              obtain ⟨inp1, m1⟩ := p
              simp only [hr] at h
              obtain ⟨⟨e1, e2, e3, e4, e5, e6, e7⟩, hconsR, a, q, hdata1⟩ :=
                parse_read_request_spec hr
              split at h
              · -- READ then WRITE: the read/write-multiple function
                rename_i hwrite
                obtain ⟨⟨f1, f2, f3, f4, f5, f6, f7⟩, hbr⟩ := parse_write_request_spec h
                have hcode : m.function.code = FunctionCode.RdWrMultRegs := by
                  refine classifier_read_write (c := m.function.code) ?_ ?_
                  · rw [← hacc]; exact hread
                  · rw [← hacc, ← e6]; exact hwrite
                rcases hbr with ⟨hs, -⟩ | ⟨-, -, hconsW, hshape⟩ | ⟨-, hnm, -⟩
                · rw [e6, hacc, hcode] at hs
                  exact absurd hs (by decide)
                · refine ⟨⟨f1.trans e1, f2.trans e2, f3.trans e3, f4.trans e4, f5.trans e5,
                    f6.trans e6, f7.trans e7⟩, ?_, ?_⟩
                  · rcases hshape with ⟨rd, w, -, hd'⟩ | ⟨hne, -⟩
                    · simp [hd']
                    · exact absurd hdata1 (hne _)
                  · intro hfull
                    rcases hshape with ⟨rd, w, -, hd'⟩ | ⟨hne, -⟩
                    · have hoff : (if m1.function.code = FunctionCode.RdWrMultRegs
                          then 7 + 4 else 7) = 11 := by
                        rw [e5, hcode]; simp
                      rw [hoff] at hconsW
                      unfold consumesFullPdu at hfull
                      rw [hd'] at hfull
                      simp only [decide_eq_true_eq] at hfull
                      have h11 : 11 ≤ m.length := by
                        have : m'.length = m.length := f3.trans e3
                        omega
                      have he3 : m1.length = m.length := e3
                      unfold Message.data_length
                      omega
                    · exact absurd hdata1 (hne _)
                · rw [e6, hacc, hcode] at hnm
                  exact absurd hnm (by decide)
              · -- READ only
                simp only [Except.ok.injEq, Prod.mk.injEq] at h
                obtain ⟨rfl, rfl⟩ := h
                refine ⟨⟨e1, e2, e3, e4, e5, e6, e7⟩, by simp [hdata1], fun hfull => ?_⟩
                unfold consumesFullPdu at hfull
                rw [hdata1] at hfull
                cases hfull
          · -- no READ
            rename_i hnread
            split at h
            · -- WRITE only
              rename_i hwrite
              obtain ⟨⟨f1, f2, f3, f4, f5, f6, f7⟩, hbr⟩ := parse_write_request_spec h
              have hcne : m.function.code ≠ FunctionCode.RdWrMultRegs := by
                refine classifier_no_read (c := m.function.code) ?_
                rw [← hacc]
                exact Bool.not_eq_true _ ▸ hnread
              refine ⟨⟨f1, f2, f3, f4, f5, f6, f7⟩, ?_, ?_⟩
              · rcases hbr with ⟨-, -, a, d, hd'⟩ | ⟨-, -, -, hshape⟩ | ⟨-, -, -, a, b, c, hd'⟩
                · simp [hd']
                · rcases hshape with ⟨rd, w, hrd, -⟩ | ⟨-, a, q, dat, hd'⟩
                  · rw [hempty] at hrd; cases hrd
                  · simp [hd']
                · simp [hd']
              · intro hfull
                rcases hbr with ⟨-, -, a, d, hd'⟩ | ⟨-, -, hconsW, hshape⟩ | ⟨-, -, -, a, b, c, hd'⟩
                · unfold consumesFullPdu at hfull
                  rw [hd'] at hfull
                  cases hfull
                · rcases hshape with ⟨rd, w, hrd, -⟩ | ⟨-, a, q, dat, hd'⟩
                  · rw [hempty] at hrd; cases hrd
                  · rw [if_neg hcne] at hconsW
                    unfold consumesFullPdu at hfull
                    rw [hd'] at hfull
                    simp only [decide_eq_true_eq] at hfull
                    have h7 : 7 ≤ m.length := by
                      have : m'.length = m.length := f3
                      omega
                    unfold Message.data_length
                    omega
                · unfold consumesFullPdu at hfull
                  rw [hd'] at hfull
                  cases hfull
            · -- neither READ nor WRITE: raw bytevec
              obtain ⟨hH, hF, hcons, d, hdata⟩ := parse_bytevec_spec h
              exact ⟨hH, by simp [hdata], fun _ => hcons⟩

theorem parse_response_spec {m : Message} {inp r : List Byte} {m' : Message}
    (h : m.parse_response inp = .ok (r, m')) :
    sameHeader m m' ∧
      (consumesFullPdu m' = true → inp.length = m.data_length + r.length) ∧
      (∀ e, m'.data = Data.exception e →
        128 ≤ m.function.raw ∧
          (e.code = ExceptionCode.IllegalDataAddr → m'.flags = m.flags)) := by
  unfold Message.parse_response at h
  split at h
  · -- exception response
    rename_i hraw
    obtain ⟨hH, hcons1, e, hdata, hfl⟩ := parse_exception_spec h
    refine ⟨hH, fun hfull => ?_, fun e' hd' => ?_⟩
    · unfold consumesFullPdu at hfull
      rw [hdata] at hfull
      cases hfull
    · rw [hdata] at hd'
      injection hd' with he
      subst he
      exact ⟨hraw, fun hc => hfl hc hraw⟩
  · rename_i hraw
    split at h
    · -- Diagnostic response
      obtain ⟨hH, hF, hdl2, hcons, f, d, hdata⟩ := parse_diagnostic_spec h
      exact ⟨hH, fun _ => hcons, fun e hd' => by rw [hdata] at hd'; cases hd'⟩
    · -- MEI response
      obtain ⟨hH, hF, hdl1, hcons, t, d, hdata⟩ := parse_mei_spec h
      exact ⟨hH, fun _ => hcons, fun e hd' => by rw [hdata] at hd'; cases hd'⟩
    · -- default arm
      split at h
      · -- RdExcStatus length flag + bytevec
        obtain ⟨hH, hF, hcons, d, hdata⟩ := parse_bytevec_spec h
        exact ⟨sameHeader_trans (sameHeader_flags ..) hH, fun _ => hcons,
          fun e hd' => by rw [hdata] at hd'; cases hd'⟩
      · split at h
        · -- GetCommEventCtr length flag + bytevec
          obtain ⟨hH, hF, hcons, d, hdata⟩ := parse_bytevec_spec h
          exact ⟨sameHeader_trans (sameHeader_flags ..) hH, fun _ => hcons,
            fun e hd' => by rw [hdata] at hd'; cases hd'⟩
        · split at h
          · -- read response
            obtain ⟨hH, hdl1, hcons, d, hdata⟩ := parse_read_response_spec h
            exact ⟨hH, fun _ => hcons, fun e hd' => by rw [hdata] at hd'; cases hd'⟩
          · split at h
            · -- write response
              obtain ⟨hH, hbr⟩ := parse_write_response_spec h
              refine ⟨hH, fun hfull => ?_, fun e hd' => ?_⟩
              · rcases hbr with ⟨-, -, a, d, hd'⟩ | ⟨-, -, -, a, q, hd', -⟩ |
                  ⟨-, -, -, a, b, c, hd'⟩ <;>
                · unfold consumesFullPdu at hfull
                  rw [hd'] at hfull
                  cases hfull
              · rcases hbr with ⟨-, -, a, d, hd''⟩ | ⟨-, -, -, a, q, hd'', -⟩ |
                  ⟨-, -, -, a, b, c, hd''⟩ <;>
                · rw [hd''] at hd'
                  cases hd'
            · -- raw bytevec
              obtain ⟨hH, hF, hcons, d, hdata⟩ := parse_bytevec_spec h
              exact ⟨hH, fun _ => hcons, fun e hd' => by rw [hdata] at hd'; cases hd'⟩

theorem parse_unknown_spec {m : Message} {inp r : List Byte} {m' : Message}
    (h : m.parse_unknown inp = .ok (r, m')) :
    sameHeader m m' ∧
      (consumesFullPdu m' = true → inp.length = m.data_length + r.length) ∧
      (∀ e, m'.data = Data.exception e →
        128 ≤ m.function.raw ∧
          (e.code = ExceptionCode.IllegalDataAddr → m'.flags = m.flags)) := by
  unfold Message.parse_unknown at h
  split at h
  · rename_i hraw
    obtain ⟨hH, hcons1, e, hdata, hfl⟩ := parse_exception_spec h
    refine ⟨hH, fun hfull => ?_, fun e' hd' => ?_⟩
    · unfold consumesFullPdu at hfull
      rw [hdata] at hfull
      cases hfull
    · rw [hdata] at hd'
      injection hd' with he
      subst he
      exact ⟨hraw, fun hc => hfl hc hraw⟩
  · rename_i hraw
    split at h
    · obtain ⟨hH, hF, hdl2, hcons, f, d, hdata⟩ := parse_diagnostic_spec h
      exact ⟨hH, fun _ => hcons, fun e hd' => by rw [hdata] at hd'; cases hd'⟩
    · obtain ⟨hH, hF, hdl1, hcons, t, d, hdata⟩ := parse_mei_spec h
      exact ⟨hH, fun _ => hcons, fun e hd' => by rw [hdata] at hd'; cases hd'⟩
    · obtain ⟨hH, hF, hcons, d, hdata⟩ := parse_bytevec_spec h
      exact ⟨hH, fun _ => hcons, fun e hd' => by rw [hdata] at hd'; cases hd'⟩

theorem parse_ok_inv {input : List Byte} {dir : Direction} {rest : List Byte} {msg : Message}
    (h : Modbus.parse input dir = .ok (rest, some msg)) :
    ∃ (m0 m1 : Message) (inp5 : List Byte),
      m0.data = Data.empty ∧ m0.flags = ErrorFlags.NONE ∧
      m0.category = CodeCategory.NONE ∧ m0.protocol_id = 0 ∧
      m0.access_type = AccessType.fromFunctionCode m0.function.code ∧
      2 ≤ m0.length ∧ m0.length < 65536 ∧
      input.length = 8 + inp5.length ∧
      (match dir with
       | .toServer => m0.parse_request inp5
       | .toClient => m0.parse_response inp5
       | .unknown => m0.parse_unknown inp5) = .ok (rest, m1) ∧
      msg = { m1 with category := CodeCategory.fromMessage m1 } := by
  unfold Modbus.parse at h
  split at h
  · cases h
  · rename_i inp1 tid h1
    split at h
    · cases h
    · rename_i inp2 pid h2
      split at h
      · cases h
      · rename_i hpid
        split at h
        · cases h
        · rename_i inp3 len h3
          split at h
          · cases h
          · rename_i hlen2
            split at h
            · simp only [] at h
              split at h <;> cases h
            · rename_i hbuf
              split at h
              · cases h
              · rename_i inp4 uid h4
                split at h
                · cases h
                · rename_i inp5 rawf h5
                  simp only [] at h
                  split at h
                  · cases h
                  · rename_i inp6 m1 hdisp
                    simp only [Except.ok.injEq, Prod.mk.injEq, Option.some.injEq] at h
                    obtain ⟨rfl, rfl⟩ := h
                    refine ⟨_, m1, inp5, rfl, rfl, rfl, by show pid = 0; omega, rfl,
                      by show 2 ≤ len; omega, be_u16_lt h3, ?_, hdisp, rfl⟩
                    have l1 := be_u16_len h1
                    have l2 := be_u16_len h2
                    have l3 := be_u16_len h3
                    have l4 := be_u8_len h4
                    have l5 := be_u8_len h5
                    omega

/-! ### The claims -/

/-- Supporting fact for C1: the bit-access test in the write-multiple request
dissector uses bitflags `contains` with BIT_ACCESS_MASK (= DISCRETES|COILS),
which no function code's access type satisfies, so that branch is dead. -/
theorem write_request_bit_branch_dead (c : FunctionCode) :
    flagContains (AccessType.fromFunctionCode c) AccessType.BIT_ACCESS_MASK = false := by
  cases c <;> rfl

/-- C1: refuted on the code (code_bug).  A WrMultCoils (bit-oriented) request
with quantity = 1, count = 1, one data byte satisfies every rule the claim
says should leave the message clean (quantity ≠ 0, length − offset = count,
quantity ≤ 2000, quantity = ⌈count/8⌉ = 1), yet the parser sets DATA_VALUE:
the dissector tests `contains BIT_ACCESS_MASK` (never true, see
`write_request_bit_branch_dead`) instead of `intersects`, so the coils
request is validated with the word rules (count ≠ 2·quantity). -/
theorem claim_C1_code_eval :
    Modbus.parse
      [0x00, 0x01, 0x00, 0x00, 0x00, 0x08, 0x01, 0x0f, 0x00, 0x00, 0x00, 0x01, 0x01, 0xff]
      Direction.toServer =
      .ok ([], some
        { transaction_id := 1, protocol_id := 0, length := 8, unit_id := 1,
          function := { raw := 0x0f, code := FunctionCode.WrMultCoils },
          access_type := 138, category := CodeCategory.PUBLIC_ASSIGNED,
          data := Data.write (Write.multReq 0 1 [0xff]),
          flags := ErrorFlags.DATA_VALUE }) ∧
    (1 : Nat) ≤ 2000 ∧ (1 : Nat) = 1 / 8 + 1 ∧ (8 : Nat) - 7 = 1 ∧ (1 : Nat) ≠ 0 ∧
    ErrorFlags.DATA_VALUE ≠ ErrorFlags.NONE := by
  decide

/-- C9: refuted on the code (code_bug).  A WrMultCoils request frame declaring
length 6 still lets the dissector read address, quantity and count (7 bytes
follow the length field), after which it evaluates `length - offset` with
length = 6 < 7 = offset: a u16 underflow (panic in debug builds); with the
release wrap-around semantics the parser demands 65535 further bytes. -/
theorem claim_C9_code_eval :
    Modbus.parse [0x00, 0x00, 0x00, 0x00, 0x00, 0x06, 0x01, 0x0f, 0x00, 0x00, 0x00, 0x01, 0x03]
      Direction.toServer = .error (.incomplete 65535) ∧
    (6 : Nat) < 7 ∧ (6 + 65536 - 7) % 65536 = 65535 := by
  decide

/-- C3, counterexample: an exception response inside a frame declaring
length 4 consumes only one PDU byte, so 1 byte remains where the claim
computes input.len − (7 + length − 1) = 10 − 10 = 0. -/
theorem claim_C3_counterexample :
    Modbus.parse [0x00, 0x00, 0x00, 0x00, 0x00, 0x04, 0x08, 0x88, 0x0b, 0x00]
      Direction.toClient =
      .ok ([0x00], some
        { transaction_id := 0, protocol_id := 0, length := 4, unit_id := 8,
          function := { raw := 0x88, code := FunctionCode.Diagnostic },
          access_type := AccessType.NONE, category := CodeCategory.NONE,
          data := Data.exception { raw := 0x0b, code := ExceptionCode.GatewayTargetFailToResp },
          flags := ErrorFlags.NONE }) ∧
    ([(0x00 : Byte)].length : Nat) = 1 ∧
    ([0x00, 0x00, 0x00, 0x00, 0x00, 0x04, 0x08, 0x88, 0x0b, (0x00 : Byte)].length
      - (7 + (4 - 1)) : Nat) = 0 ∧ (1 : Nat) ≠ 0 := by
  decide

/-- C6, counterexample: a write-multiple request with quantity = 0 has no
address range (get_address_range = none), so any address is outside it, yet
get_write_value_at_address still returns the register bytes at address 4. -/
theorem claim_C6_counterexample :
    Modbus.parse
      [0x00, 0x01, 0x00, 0x00, 0x00, 0x0b, 0x01, 0x10, 0x00, 0x03, 0x00, 0x00,
        0x04, 0x0a, 0x0b, 0x00, 0x00] Direction.toServer =
      .ok ([], some
        { transaction_id := 1, protocol_id := 0, length := 11, unit_id := 1,
          function := { raw := 0x10, code := FunctionCode.WrMultRegs },
          access_type := 162, category := CodeCategory.PUBLIC_ASSIGNED,
          data := Data.write (Write.multReq 3 0 [0x0a, 0x0b, 0x00, 0x00]),
          flags := ErrorFlags.DATA_VALUE }) ∧
    Message.get_address_range
      { transaction_id := 1, protocol_id := 0, length := 11, unit_id := 1,
        function := { raw := 0x10, code := FunctionCode.WrMultRegs },
        access_type := 162, category := CodeCategory.PUBLIC_ASSIGNED,
        data := Data.write (Write.multReq 3 0 [0x0a, 0x0b, 0x00, 0x00]),
        flags := ErrorFlags.DATA_VALUE } = none ∧
    Message.get_write_value_at_address
      { transaction_id := 1, protocol_id := 0, length := 11, unit_id := 1,
        function := { raw := 0x10, code := FunctionCode.WrMultRegs },
        access_type := 162, category := CodeCategory.PUBLIC_ASSIGNED,
        data := Data.write (Write.multReq 3 0 [0x0a, 0x0b, 0x00, 0x00]),
        flags := ErrorFlags.DATA_VALUE } 4 = some 0x0a0b := by
  decide

/-- C5, counterexample: two parsed Diagnostic frames with equal transaction,
unit, function and access type, where a's subfunction is Reserved (category
RESERVED) and b's is ForceListenOnlyMode (category PUBLIC_ASSIGNED):
a.matches(b) early-accepts on a's non-PUBLIC_ASSIGNED category, but
b.matches(a) compares the subfunction records and returns false. -/
theorem claim_C5_counterexample :
    Modbus.parse [0x00, 0x01, 0x00, 0x00, 0x00, 0x04, 0x03, 0x08, 0x00, 0x16]
      Direction.unknown =
      .ok ([], some
        { transaction_id := 1, protocol_id := 0, length := 4, unit_id := 3,
          function := { raw := 8, code := FunctionCode.Diagnostic },
          access_type := AccessType.NONE, category := CodeCategory.RESERVED,
          data := Data.diagnostic { raw := 22, code := DiagnosticSubfunction.Reserved } [],
          flags := ErrorFlags.NONE }) ∧
    Modbus.parse [0x00, 0x01, 0x00, 0x00, 0x00, 0x06, 0x03, 0x08, 0x00, 0x04, 0x00, 0x00]
      Direction.unknown =
      .ok ([], some
        { transaction_id := 1, protocol_id := 0, length := 6, unit_id := 3,
          function := { raw := 8, code := FunctionCode.Diagnostic },
          access_type := AccessType.NONE, category := CodeCategory.PUBLIC_ASSIGNED,
          data := Data.diagnostic
            { raw := 4, code := DiagnosticSubfunction.ForceListenOnlyMode } [0x00, 0x00],
          flags := ErrorFlags.NONE }) ∧
    (Message.matches
      { transaction_id := 1, protocol_id := 0, length := 4, unit_id := 3,
        function := { raw := 8, code := FunctionCode.Diagnostic },
        access_type := AccessType.NONE, category := CodeCategory.RESERVED,
        data := Data.diagnostic { raw := 22, code := DiagnosticSubfunction.Reserved } [],
        flags := ErrorFlags.NONE }
      { transaction_id := 1, protocol_id := 0, length := 6, unit_id := 3,
        function := { raw := 8, code := FunctionCode.Diagnostic },
        access_type := AccessType.NONE, category := CodeCategory.PUBLIC_ASSIGNED,
        data := Data.diagnostic
          { raw := 4, code := DiagnosticSubfunction.ForceListenOnlyMode } [0x00, 0x00],
        flags := ErrorFlags.NONE }).1 = true ∧
    (Message.matches
      { transaction_id := 1, protocol_id := 0, length := 6, unit_id := 3,
        function := { raw := 8, code := FunctionCode.Diagnostic },
        access_type := AccessType.NONE, category := CodeCategory.PUBLIC_ASSIGNED,
        data := Data.diagnostic
          { raw := 4, code := DiagnosticSubfunction.ForceListenOnlyMode } [0x00, 0x00],
        flags := ErrorFlags.NONE }
      { transaction_id := 1, protocol_id := 0, length := 4, unit_id := 3,
        function := { raw := 8, code := FunctionCode.Diagnostic },
        access_type := AccessType.NONE, category := CodeCategory.RESERVED,
        data := Data.diagnostic { raw := 22, code := DiagnosticSubfunction.Reserved } [],
        flags := ErrorFlags.NONE }).1 = false := by
  decide

/-- C7, counterexample: a parsed exception response whose function code
decodes to Diagnostic (raw 0x88) carries Exception data; its category is
NONE, not PUBLIC_ASSIGNED as the claim states for non-Diagnostic payloads. -/
theorem claim_C7_counterexample :
    Modbus.parse [0x00, 0x00, 0x00, 0x00, 0x00, 0x03, 0x08, 0x88, 0x0b] Direction.unknown =
      .ok ([], some
        { transaction_id := 0, protocol_id := 0, length := 3, unit_id := 8,
          function := { raw := 0x88, code := FunctionCode.Diagnostic },
          access_type := AccessType.NONE, category := CodeCategory.NONE,
          data := Data.exception { raw := 0x0b, code := ExceptionCode.GatewayTargetFailToResp },
          flags := ErrorFlags.NONE }) ∧
    CodeCategory.NONE ≠ CodeCategory.PUBLIC_ASSIGNED := by
  decide

/-- C2, counterexample: the RdWrMultRegs response is a successfully parsed
ToClient message whose access type contains WRITE and MULTIPLE, but its
payload is a read response, not Write::Other as the claim states. -/
theorem claim_C2_counterexample :
    Modbus.parse [0x00, 0x01, 0x00, 0x00, 0x00, 0x05, 0x01, 0x17, 0x02, 0x0e, 0x0f]
      Direction.toClient =
      .ok ([], some
        { transaction_id := 1, protocol_id := 0, length := 5, unit_id := 1,
          function := { raw := 0x17, code := FunctionCode.RdWrMultRegs },
          access_type := 163, category := CodeCategory.PUBLIC_ASSIGNED,
          data := Data.read (Read.response [0x0e, 0x0f]),
          flags := ErrorFlags.NONE }) ∧
    flagContains (163 : AccessType) (AccessType.WRITE ||| AccessType.MULTIPLE) = true ∧
    ∀ a q, Data.read (Read.response [0x0e, 0x0f]) ≠ Data.write (Write.other a q) := by
  refine ⟨by decide, by decide, fun a q h => by cases h⟩

/-- C4, confirmed: once the six header bytes are present, protocol_id ≠ 0 or
length < 2 fail with InvalidData, and a declared-length deficit fails with
Incomplete(deficit) computed before unit_id is read; the validation errors
take precedence over the missing-PDU-bytes Incomplete. -/
theorem claim_C4 (t1 t2 p1 p2 l1 l2 : Byte) (rest : List Byte) (dir : Direction) :
    (p1.val * 256 + p2.val ≠ 0 →
      Modbus.parse (t1 :: t2 :: p1 :: p2 :: l1 :: l2 :: rest) dir = .error .invalidData) ∧
    (p1.val * 256 + p2.val = 0 → l1.val * 256 + l2.val < 2 →
      Modbus.parse (t1 :: t2 :: p1 :: p2 :: l1 :: l2 :: rest) dir = .error .invalidData) ∧
    (p1.val * 256 + p2.val = 0 → 2 ≤ l1.val * 256 + l2.val →
      rest.length < l1.val * 256 + l2.val →
      Modbus.parse (t1 :: t2 :: p1 :: p2 :: l1 :: l2 :: rest) dir =
        .error (.incomplete (l1.val * 256 + l2.val - rest.length))) := by
  refine ⟨fun hp => ?_, fun hp hl => ?_, fun hp hl hrest => ?_⟩
  · unfold Modbus.parse
    simp only [be_u16]
    rw [if_pos hp]
  · unfold Modbus.parse
    simp only [be_u16]
    rw [if_neg (by omega), if_pos hl]
  · unfold Modbus.parse
    simp only [be_u16]
    rw [if_neg (by omega), if_neg (by omega), if_pos hrest]
    rw [if_neg (by omega)]

/-- C4 witness: the three error paths at concrete inputs. -/
theorem claim_C4_witness :
    Modbus.parse [0x00, 0x00, 0x00, 0x01, 0x00, 0x00] Direction.unknown =
      .error .invalidData ∧
    Modbus.parse [0x00, 0x00, 0x00, 0x00, 0x00, 0x01, 0xaa] Direction.unknown =
      .error .invalidData ∧
    Modbus.parse [0x00, 0x00, 0x00, 0x00, 0x00, 0x05, 0x01] Direction.unknown =
      .error (.incomplete 4) :=
  ⟨(claim_C4 0 0 0 1 0 0 [] .unknown).1 (by decide),
   (claim_C4 0 0 0 0 0 1 [0xaa] .unknown).2.1 (by decide) (by decide),
   (claim_C4 0 0 0 0 0 5 [0x01] .unknown).2.2 (by decide) (by decide) (by decide)⟩

/-- C6, amended: when get_address_range returns a range and the queried
address is outside it, get_write_value_at_address returns None.  (The claim's
extension to a missing range is refuted by `claim_C6_counterexample`.) -/
theorem claim_C6 (m : Message) (a lo hi : Nat)
    (hr : m.get_address_range = some (lo, hi))
    (hout : rangeContains (lo, hi) a = false) :
    m.get_write_value_at_address a = none := by
  unfold Message.get_write_value_at_address
  simp only []
  rw [hr]
  simp [hout]

/-- C6 witness: a single-coil write covering only coil 3, queried at 5. -/
theorem claim_C6_witness :
    Message.get_write_value_at_address
      { transaction_id := 1, protocol_id := 0, length := 6, unit_id := 1,
        function := { raw := 5, code := FunctionCode.WrSingleCoil },
        access_type := 74, category := CodeCategory.PUBLIC_ASSIGNED,
        data := Data.write (Write.other 2 0), flags := ErrorFlags.NONE } 5 = none :=
  claim_C6 _ 5 3 3 (by decide) (by decide)

/-- Every parsed message's category is the category resolver applied to the
final message. -/
theorem parse_ok_category {input : List Byte} {dir : Direction} {rest : List Byte}
    {msg : Message} (h : Modbus.parse input dir = .ok (rest, some msg)) :
    msg.category = CodeCategory.fromMessage msg := by
  obtain ⟨m0, m1, inp5, -, -, -, -, -, -, -, -, -, hmsg⟩ := parse_ok_inv h
  subst hmsg
  rfl

/-- C7, amended: for a parsed message whose function code is Diagnostic, the
category is RESERVED for a Diagnostic payload with a Reserved subfunction,
PUBLIC_ASSIGNED for any other Diagnostic payload, and NONE for every other
payload shape (in particular Exception; refuting the claim's
PUBLIC_ASSIGNED-everywhere reading, see `claim_C7_counterexample`). -/
theorem claim_C7 {input : List Byte} {dir : Direction} {rest : List Byte} {msg : Message}
    (h : Modbus.parse input dir = .ok (rest, some msg))
    (hcode : msg.function.code = FunctionCode.Diagnostic) :
    msg.category =
      (match msg.data with
       | Data.diagnostic f _ =>
         if f.code = DiagnosticSubfunction.Reserved then CodeCategory.RESERVED
         else CodeCategory.PUBLIC_ASSIGNED
       | _ => CodeCategory.NONE) := by
  rw [parse_ok_category h]
  unfold CodeCategory.fromMessage
  split <;> simp_all

/-- C7 witness: a Diagnostic request with the ForceListenOnlyMode
subfunction is categorised PUBLIC_ASSIGNED. -/
theorem claim_C7_witness :
    Message.category
      { transaction_id := 1, protocol_id := 0, length := 6, unit_id := 3,
        function := { raw := 8, code := FunctionCode.Diagnostic },
        access_type := AccessType.NONE, category := CodeCategory.PUBLIC_ASSIGNED,
        data := Data.diagnostic
          { raw := 4, code := DiagnosticSubfunction.ForceListenOnlyMode } [0x00, 0x00],
        flags := ErrorFlags.NONE } =
      (match Data.diagnostic
          { raw := 4, code := DiagnosticSubfunction.ForceListenOnlyMode } [0x00, 0x00] with
       | Data.diagnostic f _ =>
         if f.code = DiagnosticSubfunction.Reserved then CodeCategory.RESERVED
         else CodeCategory.PUBLIC_ASSIGNED
       | _ => CodeCategory.NONE) :=
  claim_C7
    (show Modbus.parse [0x00, 0x01, 0x00, 0x00, 0x00, 0x06, 0x03, 0x08, 0x00, 0x04, 0x00, 0x00]
        Direction.toServer =
      .ok ([], some
        { transaction_id := 1, protocol_id := 0, length := 6, unit_id := 3,
          function := { raw := 8, code := FunctionCode.Diagnostic },
          access_type := AccessType.NONE, category := CodeCategory.PUBLIC_ASSIGNED,
          data := Data.diagnostic
            { raw := 4, code := DiagnosticSubfunction.ForceListenOnlyMode } [0x00, 0x00],
          flags := ErrorFlags.NONE }) by decide)
    (by decide)

/-- Every parsed message keeps the header fields of the framer-built message,
in particular its access type and function. -/
theorem parse_ok_header {input : List Byte} {dir : Direction} {rest : List Byte}
    {msg : Message} (h : Modbus.parse input dir = .ok (rest, some msg)) :
    msg.access_type = AccessType.fromFunctionCode msg.function.code := by
  obtain ⟨m0, m1, inp5, hempty, -, -, -, hacc0, -, hlt, -, hdisp, hmsg⟩ := parse_ok_inv h
  have hH : sameHeader m0 m1 := by
    cases dir with
    | toServer => exact (parse_request_spec hacc0 hlt hempty hdisp).1
    | toClient => exact (parse_response_spec hdisp).1
    | unknown => exact (parse_unknown_spec hdisp).1
  obtain ⟨-, -, -, -, hfun, haccp, -⟩ := hH
  have h1 : msg.access_type = m0.access_type := by rw [hmsg]; exact haccp
  have h2 : msg.function = m0.function := by rw [hmsg]; exact hfun
  rw [h1, h2, hacc0]

/-- C8, confirmed: access_type of every parsed message equals the fixed
classifier applied to the decoded function code (so it depends only on the
code, not on direction or payload), and the classifier maps each code as the
claim's table states. -/
theorem claim_C8 :
    (∀ (input : List Byte) (dir : Direction) (rest : List Byte) (msg : Message),
      Modbus.parse input dir = .ok (rest, some msg) →
      msg.access_type = AccessType.fromFunctionCode msg.function.code) ∧
    AccessType.fromFunctionCode .RdCoils = (AccessType.READ ||| AccessType.COILS) ∧
    AccessType.fromFunctionCode .RdDiscreteInputs =
      (AccessType.READ ||| AccessType.DISCRETES) ∧
    AccessType.fromFunctionCode .RdHoldRegs = (AccessType.READ ||| AccessType.HOLDING) ∧
    AccessType.fromFunctionCode .RdInputRegs = (AccessType.READ ||| AccessType.INPUT) ∧
    AccessType.fromFunctionCode .WrSingleCoil =
      (AccessType.COILS ||| AccessType.WRITE ||| AccessType.SINGLE) ∧
    AccessType.fromFunctionCode .WrSingleReg =
      (AccessType.HOLDING ||| AccessType.WRITE ||| AccessType.SINGLE) ∧
    AccessType.fromFunctionCode .WrMultCoils =
      (AccessType.COILS ||| AccessType.WRITE ||| AccessType.MULTIPLE) ∧
    AccessType.fromFunctionCode .WrMultRegs =
      (AccessType.HOLDING ||| AccessType.WRITE ||| AccessType.MULTIPLE) ∧
    AccessType.fromFunctionCode .MaskWrReg = (AccessType.HOLDING ||| AccessType.WRITE) ∧
    AccessType.fromFunctionCode .RdWrMultRegs =
      (AccessType.HOLDING ||| AccessType.READ ||| AccessType.WRITE |||
        AccessType.MULTIPLE) ∧
    AccessType.fromFunctionCode .RdExcStatus = AccessType.NONE ∧
    AccessType.fromFunctionCode .Diagnostic = AccessType.NONE ∧
    AccessType.fromFunctionCode .Program484 = AccessType.NONE ∧
    AccessType.fromFunctionCode .Poll484 = AccessType.NONE ∧
    AccessType.fromFunctionCode .GetCommEventCtr = AccessType.NONE ∧
    AccessType.fromFunctionCode .GetCommEventLog = AccessType.NONE ∧
    AccessType.fromFunctionCode .ProgramController = AccessType.NONE ∧
    AccessType.fromFunctionCode .PollController = AccessType.NONE ∧
    AccessType.fromFunctionCode .ReportServerID = AccessType.NONE ∧
    AccessType.fromFunctionCode .Program884 = AccessType.NONE ∧
    AccessType.fromFunctionCode .ResetCommLink = AccessType.NONE ∧
    AccessType.fromFunctionCode .RdFileRec = AccessType.NONE ∧
    AccessType.fromFunctionCode .WrFileRec = AccessType.NONE ∧
    AccessType.fromFunctionCode .RdFIFOQueue = AccessType.NONE ∧
    AccessType.fromFunctionCode .MEI = AccessType.NONE ∧
    AccessType.fromFunctionCode .Unknown = AccessType.NONE := by
  refine ⟨fun input dir rest msg h => parse_ok_header h, ?_⟩
  decide

/-- C8 witness: the read-coils request instantiates the parsed-message
clause. -/
theorem claim_C8_witness :
    Message.access_type
      { transaction_id := 1, protocol_id := 0, length := 6, unit_id := 1,
        function := { raw := 1, code := FunctionCode.RdCoils },
        access_type := 9, category := CodeCategory.PUBLIC_ASSIGNED,
        data := Data.read (Read.request 0 1), flags := ErrorFlags.NONE } =
      AccessType.fromFunctionCode
        (Message.function
          { transaction_id := 1, protocol_id := 0, length := 6, unit_id := 1,
            function := { raw := 1, code := FunctionCode.RdCoils },
            access_type := 9, category := CodeCategory.PUBLIC_ASSIGNED,
            data := Data.read (Read.request 0 1), flags := ErrorFlags.NONE }).code :=
  claim_C8.1 [0x00, 0x01, 0x00, 0x00, 0x00, 0x06, 0x01, 0x01, 0x00, 0x00, 0x00, 0x01]
    Direction.toServer [] _ (by decide)

/-- C10, confirmed: a parsed message whose data is an Exception with code
IllegalDataAddr never carries the EXC_CODE flag: the exception dissector only
runs with raw ≥ 0x80, where the 6 < raw < 15 / 16 < raw < 22 test is false. -/
theorem claim_C10 {input : List Byte} {dir : Direction} {rest : List Byte}
    {msg : Message} {e : Exception}
    (h : Modbus.parse input dir = .ok (rest, some msg))
    (hdata : msg.data = Data.exception e)
    (hcode : e.code = ExceptionCode.IllegalDataAddr) :
    msg.flags &&& ErrorFlags.EXC_CODE = 0 := by
  obtain ⟨m0, m1, inp5, hempty, hflags0, -, -, hacc0, -, hlt, -, hdisp, hmsg⟩ :=
    parse_ok_inv h
  have hdata1 : m1.data = Data.exception e := by rw [hmsg] at hdata; exact hdata
  have hflags : msg.flags = m1.flags := by rw [hmsg]
  cases dir with
  | toServer =>
    obtain ⟨-, hne, -⟩ := parse_request_spec hacc0 hlt hempty hdisp
    exact absurd hdata1 (hne e)
  | toClient =>
    obtain ⟨-, -, hexc⟩ := parse_response_spec hdisp
    obtain ⟨-, hfl⟩ := hexc e hdata1
    rw [hflags, hfl hcode, hflags0]
    rfl
  | unknown =>
    obtain ⟨-, -, hexc⟩ := parse_unknown_spec hdisp
    obtain ⟨-, hfl⟩ := hexc e hdata1
    rw [hflags, hfl hcode, hflags0]
    rfl

/-- C10 witness: the parsed IllegalDataAddr exception response for read
coils carries no EXC_CODE flag. -/
theorem claim_C10_witness :
    Message.flags
      { transaction_id := 0, protocol_id := 0, length := 3, unit_id := 1,
        function := { raw := 0x81, code := FunctionCode.RdCoils },
        access_type := 9, category := CodeCategory.PUBLIC_ASSIGNED,
        data := Data.exception { raw := 2, code := ExceptionCode.IllegalDataAddr },
        flags := ErrorFlags.NONE } &&& ErrorFlags.EXC_CODE = 0 :=
  claim_C10
    (show Modbus.parse [0x00, 0x00, 0x00, 0x00, 0x00, 0x03, 0x01, 0x81, 0x02]
        Direction.toClient =
      .ok ([], some
        { transaction_id := 0, protocol_id := 0, length := 3, unit_id := 1,
          function := { raw := 0x81, code := FunctionCode.RdCoils },
          access_type := 9, category := CodeCategory.PUBLIC_ASSIGNED,
          data := Data.exception { raw := 2, code := ExceptionCode.IllegalDataAddr },
          flags := ErrorFlags.NONE }) by decide)
    rfl (by decide)

/-- C3, amended: the consumed prefix is the 7-byte MBAP header plus a PDU of
length − 1 bytes exactly when the chosen dissector consumes the full declared
PDU — always for the bytevec, diagnostic, MEI and read-response shapes, and
for the write-multiple request shapes when length covers the fixed offset
(7, or 11 for read-write); the fixed-size dissectors (exception, read
request, single/mask writes, write-multiple responses) can consume less (see
`claim_C3_counterexample`). -/
theorem claim_C3 {input : List Byte} {dir : Direction} {rest : List Byte} {msg : Message}
    (h : Modbus.parse input dir = .ok (rest, some msg))
    (hfull : consumesFullPdu msg = true) :
    input.length = 6 + msg.length + rest.length := by
  obtain ⟨m0, m1, inp5, hempty, -, -, -, hacc0, hge2, hlt, hinlen, hdisp, hmsg⟩ :=
    parse_ok_inv h
  have hfull1 : consumesFullPdu m1 = true := by
    rw [hmsg, consumesFullPdu_category] at hfull
    exact hfull
  have key : sameHeader m0 m1 ∧ inp5.length = m0.data_length + rest.length := by
    cases dir with
    | toServer =>
      obtain ⟨hH, -, hcons⟩ := parse_request_spec hacc0 hlt hempty hdisp
      exact ⟨hH, hcons hfull1⟩
    | toClient =>
      obtain ⟨hH, hcons, -⟩ := parse_response_spec hdisp
      exact ⟨hH, hcons hfull1⟩
    | unknown =>
      obtain ⟨hH, hcons, -⟩ := parse_unknown_spec hdisp
      exact ⟨hH, hcons hfull1⟩
  obtain ⟨⟨-, -, hlen1, -, -, -, -⟩, hcons⟩ := key
  have hmlen : msg.length = m0.length := by rw [hmsg]; exact hlen1
  unfold Message.data_length at hcons
  omega

/-- C3 witness: the Force-Listen-Only diagnostic request consumes its whole
12-byte frame. -/
theorem claim_C3_witness :
    ([0x00, 0x01, 0x00, 0x00, 0x00, 0x06, 0x03, 0x08, 0x00, 0x04, 0x00, 0x00] :
        List Byte).length =
      6 + Message.length
        { transaction_id := 1, protocol_id := 0, length := 6, unit_id := 3,
          function := { raw := 8, code := FunctionCode.Diagnostic },
          access_type := AccessType.NONE, category := CodeCategory.PUBLIC_ASSIGNED,
          data := Data.diagnostic
            { raw := 4, code := DiagnosticSubfunction.ForceListenOnlyMode } [0x00, 0x00],
          flags := ErrorFlags.NONE } + ([] : List Byte).length :=
  claim_C3
    (show Modbus.parse [0x00, 0x01, 0x00, 0x00, 0x00, 0x06, 0x03, 0x08, 0x00, 0x04, 0x00, 0x00]
        Direction.toServer =
      .ok ([], some
        { transaction_id := 1, protocol_id := 0, length := 6, unit_id := 3,
          function := { raw := 8, code := FunctionCode.Diagnostic },
          access_type := AccessType.NONE, category := CodeCategory.PUBLIC_ASSIGNED,
          data := Data.diagnostic
            { raw := 4, code := DiagnosticSubfunction.ForceListenOnlyMode } [0x00, 0x00],
          flags := ErrorFlags.NONE }) by decide)
    (by decide)

/-- C2, amended: for a parsed ToClient message that actually reaches the
write-multiple response dissector — access type containing WRITE and
MULTIPLE, function byte below 0x80 (not an exception) and access type not
intersecting READ (excluding RdWrMultRegs, whose response is a read
response; see `claim_C2_counterexample`) — the payload is
Write::Other{address, data = quantity} and the flags are exactly:
DATA_LENGTH when data_length > 4, DATA_VALUE when quantity = 0, and the
inverted range rule (DATA_VALUE when quantity > 125 under BIT_ACCESS_MASK,
otherwise when quantity > 2000). -/
theorem claim_C2 {input rest : List Byte} {msg : Message}
    (h : Modbus.parse input Direction.toClient = .ok (rest, some msg))
    (hraw : msg.function.raw < 128)
    (hwm : flagContains msg.access_type (AccessType.WRITE ||| AccessType.MULTIPLE) = true)
    (hnr : flagIntersects msg.access_type AccessType.READ = false) :
    ∃ a q, msg.data = Data.write (Write.other a q) ∧
      msg.flags =
        (let f1 := if msg.length - 2 > 4 then
                     ErrorFlags.NONE ||| ErrorFlags.DATA_LENGTH
                   else ErrorFlags.NONE
         let f2 := if q = 0 then f1 ||| ErrorFlags.DATA_VALUE else f1
         if flagIntersects msg.access_type AccessType.BIT_ACCESS_MASK then
           if q > MAX_QUANTITY_WORD_ACCESS then f2 ||| ErrorFlags.DATA_VALUE else f2
         else if q > MAX_QUANTITY_BIT_ACCESS then f2 ||| ErrorFlags.DATA_VALUE
         else f2) := by
  obtain ⟨m0, m1, inp5, hempty, hflags0, -, -, hacc0, hge2, hlt, -, hdisp, hmsg⟩ :=
    parse_ok_inv h
  have hdisp' : m0.parse_response inp5 = .ok (rest, m1) := hdisp
  obtain ⟨hH, -, -⟩ := parse_response_spec hdisp'
  obtain ⟨-, -, hlen1, -, hfun1, hacc1, -⟩ := hH
  have hfunm : msg.function = m0.function := by rw [hmsg]; exact hfun1
  have haccm : msg.access_type = m0.access_type := by rw [hmsg]; exact hacc1
  rw [hfunm] at hraw
  rw [haccm] at hwm hnr
  unfold Message.parse_response at hdisp'
  rw [if_neg (by simp only [ERROR_MASK]; omega)] at hdisp'
  cases hc : m0.function.code
  all_goals try
    (rw [hc] at hacc0
     rw [hacc0] at hwm hnr
     first
     | exact absurd hwm (by decide)
     | exact absurd hnr (by decide))
  · -- WrMultCoils
    rw [hc] at hacc0
    simp only [hc] at hdisp'
    rw [if_neg (by simp), if_neg (by simp)] at hdisp'
    rw [hacc0] at hdisp'
    rw [if_neg (by decide), if_pos (by decide)] at hdisp'
    obtain ⟨-, hbr⟩ := parse_write_response_spec hdisp'
    rcases hbr with ⟨hs, -⟩ | ⟨-, -, -, a, q, hdata', hflags'⟩ | ⟨-, hnm, -⟩
    · rw [hacc0] at hs
      exact absurd hs (by decide)
    · refine ⟨a, q, ?_, ?_⟩
      · rw [hmsg]
        exact hdata'
      · have hflm : msg.flags = m1.flags := by rw [hmsg]
        have hlenm : msg.length = m0.length := by rw [hmsg]; exact hlen1
        rw [hflm, hflags', hflags0]
        unfold Message.data_length
        rw [haccm, hlenm, hacc0]
    · rw [hacc0] at hnm
      exact absurd hnm (by decide)
  · -- WrMultRegs
    rw [hc] at hacc0
    simp only [hc] at hdisp'
    rw [if_neg (by simp), if_neg (by simp)] at hdisp'
    rw [hacc0] at hdisp'
    rw [if_neg (by decide), if_pos (by decide)] at hdisp'
    obtain ⟨-, hbr⟩ := parse_write_response_spec hdisp'
    rcases hbr with ⟨hs, -⟩ | ⟨-, -, -, a, q, hdata', hflags'⟩ | ⟨-, hnm, -⟩
    · rw [hacc0] at hs
      exact absurd hs (by decide)
    · refine ⟨a, q, ?_, ?_⟩
      · rw [hmsg]
        exact hdata'
      · have hflm : msg.flags = m1.flags := by rw [hmsg]
        have hlenm : msg.length = m0.length := by rw [hmsg]; exact hlen1
        rw [hflm, hflags', hflags0]
        unfold Message.data_length
        rw [haccm, hlenm, hacc0]
    · rw [hacc0] at hnm
      exact absurd hnm (by decide)

/-- C2 witness: the write-multiple-registers response (address 3,
quantity 4) instantiates the amended claim. -/
theorem claim_C2_witness :
    ∃ a q, Message.data
        { transaction_id := 1, protocol_id := 0, length := 6, unit_id := 1,
          function := { raw := 0x10, code := FunctionCode.WrMultRegs },
          access_type := 162, category := CodeCategory.PUBLIC_ASSIGNED,
          data := Data.write (Write.other 3 4), flags := ErrorFlags.NONE } =
        Data.write (Write.other a q) ∧
      Message.flags
        { transaction_id := 1, protocol_id := 0, length := 6, unit_id := 1,
          function := { raw := 0x10, code := FunctionCode.WrMultRegs },
          access_type := 162, category := CodeCategory.PUBLIC_ASSIGNED,
          data := Data.write (Write.other 3 4), flags := ErrorFlags.NONE } =
        (let f1 := if Message.length
              { transaction_id := 1, protocol_id := 0, length := 6, unit_id := 1,
                function := { raw := 0x10, code := FunctionCode.WrMultRegs },
                access_type := 162, category := CodeCategory.PUBLIC_ASSIGNED,
                data := Data.write (Write.other 3 4), flags := ErrorFlags.NONE } - 2 > 4 then
              ErrorFlags.NONE ||| ErrorFlags.DATA_LENGTH
            else ErrorFlags.NONE
         let f2 := if q = 0 then f1 ||| ErrorFlags.DATA_VALUE else f1
         if flagIntersects
              (Message.access_type
                { transaction_id := 1, protocol_id := 0, length := 6, unit_id := 1,
                  function := { raw := 0x10, code := FunctionCode.WrMultRegs },
                  access_type := 162, category := CodeCategory.PUBLIC_ASSIGNED,
                  data := Data.write (Write.other 3 4), flags := ErrorFlags.NONE })
              AccessType.BIT_ACCESS_MASK then
           if q > MAX_QUANTITY_WORD_ACCESS then f2 ||| ErrorFlags.DATA_VALUE else f2
         else if q > MAX_QUANTITY_BIT_ACCESS then f2 ||| ErrorFlags.DATA_VALUE
         else f2) :=
  claim_C2
    (show Modbus.parse [0x00, 0x01, 0x00, 0x00, 0x00, 0x06, 0x01, 0x10, 0x00, 0x03, 0x00, 0x04]
        Direction.toClient =
      .ok ([], some
        { transaction_id := 1, protocol_id := 0, length := 6, unit_id := 1,
          function := { raw := 0x10, code := FunctionCode.WrMultRegs },
          access_type := 162, category := CodeCategory.PUBLIC_ASSIGNED,
          data := Data.write (Write.other 3 4), flags := ErrorFlags.NONE }) by decide)
    (by decide) (by decide) (by decide)

theorem fst_ite {α β : Type} (c : Prop) [Decidable c] (x y : α × β) :
    (if c then x else y).1 = if c then x.1 else y.1 := by
  split <;> rfl

/-- C5, amended: acceptance of `matches` is commutative for messages whose
categories are both PUBLIC_ASSIGNED and whose payloads are structurally
cross-validated shapes (not ByteVec, nor the parser-unreachable Empty /
ReadWrite-with-read-response shapes).  Without these restrictions the claim
fails: see `claim_C5_counterexample` for the category asymmetry. -/
theorem claim_C5 (a b : Message)
    (hca : a.category = CodeCategory.PUBLIC_ASSIGNED)
    (hcb : b.category = CodeCategory.PUBLIC_ASSIGNED)
    (hsa : matchableShape a.data = true)
    (hsb : matchableShape b.data = true)
    (hab : (a.matches b).1 = true) :
    (b.matches a).1 = true := by
  unfold Message.matches at hab ⊢
  split at hab
  · simp at hab
  · rename_i hne
    push_neg at hne
    obtain ⟨h1, h2, h3, h4⟩ := hne
    rw [if_neg (by push_neg; exact ⟨h1.symm, h2.symm, h3.symm, h4.symm⟩)]
    rw [if_neg (by simp [hcb])]
    rw [if_neg (by simp [hca])] at hab
    rcases hda : a.data with e | ⟨fa, da⟩ | ⟨ta, da⟩ | (⟨ra1, ra2⟩ | rda) |
        (⟨wa1, wa2, wa3⟩ | ⟨wam1, wam2, wam3⟩ | ⟨wao1, wao2⟩) |
        ⟨(⟨rwa1, rwa2⟩ | rwd), wwa⟩ | bva | - <;>
      rcases hdb : b.data with e2 | ⟨fb, db⟩ | ⟨tb, db⟩ | (⟨rb1, rb2⟩ | rdb) |
        (⟨wb1, wb2, wb3⟩ | ⟨wbm1, wbm2, wbm3⟩ | ⟨wbo1, wbo2⟩) |
        ⟨(⟨rwb1, rwb2⟩ | rwe), wwb⟩ | bvb | - <;>
      simp_all [fst_ite, matchableShape]

/-- C5 witness: the write-multiple request and its response match in both
directions. -/
theorem claim_C5_witness :
    (Message.matches
      { transaction_id := 1, protocol_id := 0, length := 6, unit_id := 1,
        function := { raw := 0x10, code := FunctionCode.WrMultRegs },
        access_type := 162, category := CodeCategory.PUBLIC_ASSIGNED,
        data := Data.write (Write.other 3 4), flags := ErrorFlags.NONE }
      { transaction_id := 1, protocol_id := 0, length := 11, unit_id := 1,
        function := { raw := 0x10, code := FunctionCode.WrMultRegs },
        access_type := 162, category := CodeCategory.PUBLIC_ASSIGNED,
        data := Data.write (Write.multReq 3 2 [0x0a, 0x0b, 0x00, 0x00]),
        flags := ErrorFlags.NONE }).1 = true :=
  claim_C5
    { transaction_id := 1, protocol_id := 0, length := 11, unit_id := 1,
      function := { raw := 0x10, code := FunctionCode.WrMultRegs },
      access_type := 162, category := CodeCategory.PUBLIC_ASSIGNED,
      data := Data.write (Write.multReq 3 2 [0x0a, 0x0b, 0x00, 0x00]),
      flags := ErrorFlags.NONE }
    { transaction_id := 1, protocol_id := 0, length := 6, unit_id := 1,
      function := { raw := 0x10, code := FunctionCode.WrMultRegs },
      access_type := 162, category := CodeCategory.PUBLIC_ASSIGNED,
      data := Data.write (Write.other 3 4), flags := ErrorFlags.NONE }
    (by decide) (by decide) (by decide) (by decide) (by decide)
